import Mathlib

set_option maxRecDepth 8000

/-! Verification of the cvedb-generator sources (main.go and
docGen/kubehunter.go).  Go strings are modelled as `List Char` (byte-level
operations of the source act identically on runes for the ASCII separators it
uses); file reads that can fail are modelled as `Option` values, and fallible
operations return `Except` or a dedicated result type with a `panicked`
outcome where the source can panic. -/

/-- Boolean prefix test: models the byte-prefix comparisons underlying
`strings.Index`, `strings.Split`, `strings.Contains` and friends. -/
def chkPre : List Char → List Char → Bool
  | [], _ => true
  | _ :: _, [] => false
  | c :: p, d :: s => c == d && chkPre p s

theorem chkPre_iff (p s : List Char) : chkPre p s = true ↔ ∃ t, s = p ++ t := by
  induction p generalizing s with
  | nil => simp [chkPre]
  | cons c p ih =>
    cases s with
    | nil =>
      simp [chkPre]
    | cons d s =>
      simp only [chkPre, Bool.and_eq_true, beq_iff_eq, ih, List.cons_append]
      constructor
      · rintro ⟨h1, t, h2⟩
        exact ⟨t, by rw [h1, h2]⟩
      · rintro ⟨t, h⟩
        cases h
        exact ⟨rfl, t, rfl⟩

/-- First occurrence of `pat` inside `s`: returns the parts strictly before and
strictly after that occurrence (models `strings.Index` together with the first
two fields of `strings.Split`). -/
def findSub (pat : List Char) : List Char → Option (List Char × List Char)
  | [] => if chkPre pat [] then some ([], []) else none
  | c :: s =>
      if chkPre pat (c :: s) then some ([], (c :: s).drop pat.length)
      else (findSub pat s).map (fun ba => (c :: ba.1, ba.2))

theorem findSub_decomp (pat s b a : List Char) (h : findSub pat s = some (b, a)) :
    s = b ++ pat ++ a := by
  induction s generalizing b a with
  | nil =>
    cases pat with
    | nil =>
      simp only [findSub, chkPre, if_pos] at h
      obtain ⟨hb, ha⟩ : ([] : List Char) = b ∧ ([] : List Char) = a := by
        simpa using h
      simp [← hb, ← ha]
    | cons c p =>
      simp [findSub, chkPre] at h
  | cons c s ih =>
    by_cases hp : chkPre pat (c :: s) = true
    · obtain ⟨t, ht⟩ := (chkPre_iff pat (c :: s)).1 hp
      simp only [findSub, if_pos hp, Option.some.injEq, Prod.mk.injEq] at h
      obtain ⟨hb, ha⟩ := h
      rw [← hb, ht, ← ha, ht]
      simp [List.drop_left]
    · simp only [findSub, if_neg hp] at h
      cases hf : findSub pat s with
      | none => rw [hf] at h; simp at h
      | some ba =>
        rw [hf] at h
        obtain ⟨hb, ha⟩ : c :: ba.1 = b ∧ ba.2 = a := by
          simpa using h
        have hdec := ih ba.1 ba.2 (by rw [hf])
        rw [← hb, ← ha]
        rw [List.cons_append, List.cons_append, ← hdec]

theorem findSub_isSome_of_decomp (pat b a : List Char) :
    (findSub pat (b ++ pat ++ a)).isSome = true := by
  induction b with
  | nil =>
    have hpre : chkPre pat (pat ++ a) = true :=
      (chkPre_iff _ _).2 ⟨a, rfl⟩
    show (findSub pat (pat ++ a)).isSome = true
    cases hs : (pat ++ a : List Char) with
    | nil => simp [findSub, hs ▸ hpre]
    | cons c cs =>
      rw [hs] at hpre
      simp [findSub, hpre]
  | cons c b ih =>
    show (findSub pat (c :: (b ++ pat ++ a))).isSome = true
    simp only [List.append_assoc] at ih ⊢
    by_cases hp : chkPre pat (c :: (b ++ (pat ++ a))) = true
    · simp [findSub, hp]
    · simp only [findSub]
      rw [if_neg hp]
      cases hf : findSub pat (b ++ (pat ++ a)) with
      | none => rw [hf] at ih; simp at ih
      | some ba => simp

/-- The text `s` contains `pat` as a contiguous substring. -/
def containsSub (s pat : List Char) : Prop := ∃ b a, s = b ++ pat ++ a

theorem containsSub_iff_findSub (s pat : List Char) :
    containsSub s pat ↔ (findSub pat s).isSome = true := by
  constructor
  · rintro ⟨b, a, rfl⟩
    exact findSub_isSome_of_decomp pat b a
  · intro h
    cases hf : findSub pat s with
    | none => rw [hf] at h; simp at h
    | some ba => exact ⟨ba.1, ba.2, findSub_decomp pat s ba.1 ba.2 (by rw [hf])⟩

instance (s pat : List Char) : Decidable (containsSub s pat) :=
  decidable_of_iff _ (containsSub_iff_findSub s pat).symm

theorem containsSub_mid (b p a : List Char) : containsSub (b ++ p ++ a) p :=
  ⟨b, a, rfl⟩

theorem containsSub_append_left (s t p : List Char) (h : containsSub s p) :
    containsSub (s ++ t) p := by
  obtain ⟨b, a, rfl⟩ := h
  exact ⟨b, a ++ t, by simp⟩

theorem containsSub_append_right (s t p : List Char) (h : containsSub t p) :
    containsSub (s ++ t) p := by
  obtain ⟨b, a, rfl⟩ := h
  exact ⟨s ++ b, a, by simp⟩

def splitSubAux (pat : List Char) : Nat → List Char → List (List Char)
  | 0, s => [s]
  | fuel + 1, s =>
      match findSub pat s with
      | none => [s]
      | some (b, a) => b :: splitSubAux pat fuel a

/-- All fields of `strings.Split s pat` (for the non-empty separators the
source uses).  Each recursion step consumes at least the separator, so a fuel
of `s.length + 1` never runs out. -/
def splitSub (pat s : List Char) : List (List Char) :=
  if pat = [] then [s] else splitSubAux pat (s.length + 1) s

theorem length_lt_of_findSub (pat s b a : List Char) (hp : pat ≠ [])
    (h : findSub pat s = some (b, a)) : a.length < s.length := by
  have hd := findSub_decomp pat s b a h
  rw [hd]
  cases pat with
  | nil => exact absurd rfl hp
  | cons c p => simp; omega

theorem splitSubAux_succ (pat : List Char) (fuel : Nat) (s : List Char) :
    splitSubAux pat (fuel + 1) s =
      match findSub pat s with
      | none => [s]
      | some (b, a) => b :: splitSubAux pat fuel a := rfl

theorem splitSubAux_stable (pat : List Char) (hp : pat ≠ []) :
    ∀ fuel fuel' s, s.length < fuel → s.length < fuel' →
      splitSubAux pat fuel s = splitSubAux pat fuel' s := by
  intro fuel
  induction fuel with
  | zero => intro fuel' s h h'; omega
  | succ f ih =>
    intro fuel' s h h'
    cases fuel' with
    | zero => omega
    | succ f' =>
      rw [splitSubAux_succ, splitSubAux_succ]
      cases hf : findSub pat s with
      | none => rfl
      | some ba =>
        obtain ⟨b, a⟩ := ba
        have hlt := length_lt_of_findSub pat s b a hp hf
        show b :: splitSubAux pat f a = b :: splitSubAux pat f' a
        rw [ih f' a (by omega) (by omega)]

theorem splitSub_of_none (pat s : List Char) (h : findSub pat s = none) :
    splitSub pat s = [s] := by
  unfold splitSub
  by_cases hp : pat = []
  · rw [if_pos hp]
  · rw [if_neg hp]
    simp [splitSubAux, h]

theorem splitSub_of_some (pat s b a : List Char) (hp : pat ≠ [])
    (h : findSub pat s = some (b, a)) : splitSub pat s = b :: splitSub pat a := by
  have hlt := length_lt_of_findSub pat s b a hp h
  unfold splitSub
  rw [if_neg hp, if_neg hp]
  show splitSubAux pat (s.length + 1) s = b :: splitSubAux pat (a.length + 1) a
  rw [splitSubAux_succ, h]
  show b :: splitSubAux pat s.length a = b :: splitSubAux pat (a.length + 1) a
  rw [splitSubAux_stable pat hp s.length (a.length + 1) a hlt (by omega)]

theorem splitSub_ne_nil (pat s : List Char) : splitSub pat s ≠ [] := by
  unfold splitSub
  by_cases hp : pat = []
  · simp [hp]
  · rw [if_neg hp]
    show splitSubAux pat (s.length + 1) s ≠ []
    simp only [splitSubAux]
    cases h : findSub pat s with
    | none => simp
    | some ba => cases ba; simp

/-- Go `strings.Contains`. -/
def goContains (s pat : List Char) : Bool := (findSub pat s).isSome

/-- Character class of Go `unicode.IsSpace` over the Latin-1 range (space,
tab, newline, vertical tab, form feed, carriage return, NEL, NBSP); the
higher Unicode space code points never occur in the generator's data. -/
def isGoSpace (c : Char) : Bool :=
  c == ' ' || c == '\t' || c == '\n' || c == '\x0b' || c == '\x0c' || c == '\r'
    || c == '\x85' || c.toNat == 0xa0

/-- Go `strings.TrimSpace`. -/
def goTrimSpace (s : List Char) : List Char :=
  ((s.dropWhile isGoSpace).reverse.dropWhile isGoSpace).reverse

/-- Go `strings.ToLower` restricted to ASCII letters (the kube-hunter ids it
is applied to are ASCII). -/
def goToLower (s : List Char) : List Char := s.map Char.toLower

/-- Go `strings.TrimSuffix`. -/
def goTrimSuffix (s suf : List Char) : List Char :=
  if chkPre suf.reverse s.reverse then (s.reverse.drop suf.length).reverse else s

/-- Go `strings.Replace(s, old, new, 1)`: replace the first occurrence only. -/
def goReplaceFirst (s old new : List Char) : List Char :=
  match findSub old s with
  | none => s
  | some (b, a) => b ++ new ++ a

/-- Go `strings.NewReplacer(pairs...).Replace` for non-empty patterns: a
single left-to-right pass; at each position the first pattern (in argument
order) that matches is replaced and scanning resumes after the replacement.
The fuel argument is the length of the remaining input, an upper bound on the
number of steps since every step consumes at least one character. -/
def goMultiReplace (prs : List (List Char × List Char)) : Nat → List Char → List Char
  | 0, s => s
  | _ + 1, [] => []
  | fuel + 1, c :: rest =>
      match prs.find? (fun pr => chkPre pr.1 (c :: rest)) with
      | some pr => pr.2 ++ goMultiReplace prs fuel ((c :: rest).drop pr.1.length)
      | none => c :: goMultiReplace prs fuel rest

def goMultiReplaceAll (prs : List (List Char × List Char)) (s : List Char) : List Char :=
  goMultiReplace prs s.length s

/-! ## Data model (main.go type declarations) -/

structure Dates where
  Published : String
  Modified : String
deriving Inhabited, DecidableEq, Repr

structure CVSS where
  V2Vector : String
  V2Score : Rat
  V3Vector : String
  V3Score : Rat
deriving Inhabited, DecidableEq, Repr

structure RelatedAttackPattern where
  CAPECID : Int
deriving Inhabited, DecidableEq, Repr

structure RelatedAttackPatternsType where
  RelatedAttackPattern : List RelatedAttackPattern
deriving Inhabited, DecidableEq, Repr

structure Mitigation where
  Phase : List String
  Strategy : String
  Description : List String
deriving Inhabited, DecidableEq, Repr

structure PotentialMitigationsType where
  Mitigation : List Mitigation
deriving Inhabited, DecidableEq, Repr

structure Consequence where
  Scope : List String
  Impact : List String
deriving Inhabited, DecidableEq, Repr

structure CommonConsequencesType where
  Consequence : List Consequence
deriving Inhabited, DecidableEq, Repr

structure WeaknessType where
  ID : Int
  Name : String
  Description : String
  PotentialMitigations : PotentialMitigationsType
  RelatedAttackPatterns : RelatedAttackPatternsType
  CommonConsequences : CommonConsequencesType
  ExtendedDescription : List String
deriving Inhabited, DecidableEq, Repr

/-- The Go zero value of `WeaknessType` (what `var w WeaknessType` holds, and
what `Vulnerability.CWEInfo` holds before enrichment). -/
def zeroWeakness : WeaknessType :=
  { ID := 0, Name := "", Description := "",
    PotentialMitigations := ⟨[]⟩, RelatedAttackPatterns := ⟨[]⟩,
    CommonConsequences := ⟨[]⟩, ExtendedDescription := [] }

structure Vulnerability where
  ID : String
  CWEID : String
  CWEInfo : WeaknessType
  Description : String
  References : List String
  CVSS : CVSS
  Dates : Dates
deriving Inhabited, DecidableEq, Repr

structure VulnerabilityPost where
  Layout : String
  Title : String
  By : String
  Date : String
  Vulnerability : Vulnerability
deriving Inhabited, DecidableEq, Repr

structure Rego where
  ID : String
  Description : String
  Links : List String
  Severity : String
  Policy : String
  RecommendedActions : String
deriving Inhabited, DecidableEq, Repr

structure RegoPost where
  Layout : String
  Title : String
  By : String
  Date : String
  Rego : Rego
deriving Inhabited, DecidableEq, Repr

/-! ## Go time handling

`ParseVulnerabilityJSONFile` calls `time.Parse("2006-01-02T04:05Z", v)`: the
layout has year, month and day, the literal `T`, then *minute* (`04`) and
*second* (`05`) separated by `:`, the literal `Z`, and no hour, so a parsed
time always has hour 0.  Errors are discarded and leave the zero time
(January 1, year 1). -/

structure GoTime where
  year : Nat
  month : Nat
  day : Nat
  hour : Nat
  minute : Nat
  second : Nat
deriving Inhabited, DecidableEq, Repr

/-- The zero `time.Time`: January 1, year 1, 00:00:00 UTC. -/
def goZeroTime : GoTime := ⟨1, 1, 1, 0, 0, 0⟩

def digitVal (c : Char) : Option Nat :=
  if '0' ≤ c ∧ c ≤ '9' then some (c.toNat - 48) else none

def isGoLeapYear (y : Nat) : Bool := y % 4 == 0 && (y % 100 != 0 || y % 400 == 0)

def goDaysInMonth (y m : Nat) : Nat :=
  if m == 2 then (if isGoLeapYear y then 29 else 28)
  else if m == 4 || m == 6 || m == 9 || m == 11 then 30
  else 31

/-- `time.Parse("2006-01-02T04:05Z", s)`: fixed-width numeric fields, literal
separators, and the range checks Go performs (month, day-of-month with leap
years, minute, second).  `none` models a parse error. -/
def goTimeParse (s : String) : Option GoTime :=
  match s.data with
  | [y1, y2, y3, y4, '-', m1, m2, '-', d1, d2, 'T', n1, n2, ':', e1, e2, 'Z'] => do
      let a ← digitVal y1
      let b ← digitVal y2
      let c ← digitVal y3
      let d ← digitVal y4
      let y := ((a * 10 + b) * 10 + c) * 10 + d
      let ma ← digitVal m1
      let mb ← digitVal m2
      let mo := ma * 10 + mb
      let da ← digitVal d1
      let db ← digitVal d2
      let dy := da * 10 + db
      let na ← digitVal n1
      let nb ← digitVal n2
      let mi := na * 10 + nb
      let ea ← digitVal e1
      let eb ← digitVal e2
      let sec := ea * 10 + eb
      if 1 ≤ mo ∧ mo ≤ 12 ∧ 1 ≤ dy ∧ dy ≤ goDaysInMonth y mo ∧ mi ≤ 59 ∧ sec ≤ 59 then
        some ⟨y, mo, dy, 0, mi, sec⟩
      else none
  | _ => none

/-- `publishedDate, _ := time.Parse(...)`: the error is dropped, failure
leaves the zero time. -/
def goTimeParseOrZero (s : String) : GoTime := (goTimeParse s).getD goZeroTime

def pad2 (n : Nat) : String := if n < 10 then "0" ++ toString n else toString n

def pad4 (n : Nat) : String :=
  if n < 10 then "000" ++ toString n
  else if n < 100 then "00" ++ toString n
  else if n < 1000 then "0" ++ toString n
  else toString n

/-- `t.UTC().Format("2006-01-02T15:04Z")`. -/
def goFormatDateShort (t : GoTime) : String :=
  pad4 t.year ++ "-" ++ pad2 t.month ++ "-" ++ pad2 t.day ++ "T"
    ++ pad2 t.hour ++ ":" ++ pad2 t.minute ++ "Z"

/-- `t.UTC().Format("2006-01-02 03:04:05 -0700")` (12-hour clock: hour 0
prints as 12). -/
def goFormatDateLong (t : GoTime) : String :=
  pad4 t.year ++ "-" ++ pad2 t.month ++ "-" ++ pad2 t.day ++ " "
    ++ pad2 ((t.hour + 11) % 12 + 1) ++ ":" ++ pad2 t.minute ++ ":" ++ pad2 t.second
    ++ " +0000"

/-! ## Floating point scores

`GetFloat64` yields a float64 rendered by text/template via `%v`
(`strconv.FormatFloat(f, 'g', -1, 64)`).  Scores are modelled as rationals;
every float64 is a dyadic rational, so its shortest decimal form is finite.
The exponent notation `%g` switches to for magnitudes ≥ 1e21 or < 1e-4 is
outside the range of CVSS scores and not modelled. -/

def decimalFracWidth (den : Nat) : Nat :=
  ((List.range 1100).find? (fun k => k != 0 && (10 ^ k) % den == 0)).getD 1100

def padZerosTo (w : Nat) (n : Nat) : String :=
  let s := toString n
  ⟨List.replicate (w - s.length) '0'⟩ ++ s

def goFormatFloat (q : Rat) : String :=
  if q.den == 1 then toString q.num
  else
    let k := decimalFracWidth q.den
    let scaled := q.num.natAbs * (10 ^ k / q.den)
    (if q.num < 0 then "-" else "") ++ toString (scaled / 10 ^ k) ++ "."
      ++ padZerosTo k (scaled % 10 ^ k)

/-! ## fastjson string extraction

`v.GetStringBytes(path...)` returns the decoded string value (nil, hence ""
once converted, when absent).  For the references the source instead calls
`r.Get("url").String()`, which returns the JSON-quoted representation:
fastjson appends the raw bytes between quotes when the value has no double
quote, backslash or control character, and falls back to `strconv.AppendQuote`
(Go escaping) otherwise.  Modelled over the ASCII range. -/

def hexDigitChar (n : Nat) : Char :=
  if n < 10 then Char.ofNat (48 + n) else Char.ofNat (87 + n)

def goQuoteChar (c : Char) : List Char :=
  if c == '"' then ['\\', '"']
  else if c == '\\' then ['\\', '\\']
  else if c == '\x07' then ['\\', 'a']
  else if c == '\x08' then ['\\', 'b']
  else if c == '\x0c' then ['\\', 'f']
  else if c == '\n' then ['\\', 'n']
  else if c == '\r' then ['\\', 'r']
  else if c == '\t' then ['\\', 't']
  else if c == '\x0b' then ['\\', 'v']
  else if c.toNat < 0x20 then ['\\', 'x', hexDigitChar (c.toNat / 16), hexDigitChar (c.toNat % 16)]
  else [c]

def hasSpecialChars (s : String) : Bool :=
  s.data.any (fun c => c == '"' || c == '\\' || c.toNat < 0x20)

def fastjsonStringRepr (s : String) : List Char :=
  if hasSpecialChars s then '"' :: (s.data.map goQuoteChar).flatten ++ ['"']
  else '"' :: s.data ++ ['"']

/-- `strings.ReplaceAll(r.Get("url").String(), QUOTE, "")`: the JSON-quoted
representation with every double-quote byte deleted (main.go line 234). -/
def refStringTransform (url : String) : String :=
  ⟨(fastjsonStringRepr url).filter (fun c => c != '"')⟩

/-- `strings.NewReplacer(QUOTE, "", BACKSLASH, "").Replace`: deletes every
double quote and backslash (main.go line 215). -/
def goStripQuotesBackslash (s : String) : String :=
  ⟨s.data.filter (fun c => c != '"' && c != '\\')⟩

/-! ## ParseVulnerabilityJSONFile (main.go lines 203-245)

The input models the result of reading and fastjson-parsing one NVD record:
`none` is a read error or malformed JSON (`p.ParseBytes` failure); otherwise
the fields are the decoded string/number values at the paths the source
queries, `none` where the path is absent (fastjson getters then yield nil,
i.e. "" / 0).  A reference array element is modelled by its `url` member. -/

structure VulnJson where
  descriptionValue : Option String := none
  cveId : Option String := none
  cweId : Option String := none
  v2Vector : Option String := none
  v2Score : Option Rat := none
  v3Vector : Option String := none
  v3Score : Option Rat := none
  publishedDate : Option String := none
  lastModifiedDate : Option String := none
  referenceUrls : List String := []
deriving Inhabited, DecidableEq, Repr

def ParseVulnerabilityJSONFile (file : Option VulnJson) : Except String VulnerabilityPost :=
  match file with
  | none => .error "read error or malformed JSON"
  | some j =>
      let publishedDate := goTimeParseOrZero (j.publishedDate.getD "")
      let modifiedDate := goTimeParseOrZero (j.lastModifiedDate.getD "")
      .ok { Layout := "vulnerability",
            Title := j.cveId.getD "",
            By := "NVD",
            Date := goFormatDateLong publishedDate,
            Vulnerability := {
              ID := j.cveId.getD "",
              CWEID := j.cweId.getD "",
              CWEInfo := zeroWeakness,
              Description := goStripQuotesBackslash (j.descriptionValue.getD ""),
              References := j.referenceUrls.map refStringTransform,
              CVSS := { V2Vector := j.v2Vector.getD "", V2Score := j.v2Score.getD 0,
                        V3Vector := j.v3Vector.getD "", V3Score := j.v3Score.getD 0 },
              Dates := { Published := goFormatDateShort publishedDate,
                         Modified := goFormatDateShort modifiedDate } } }

/-- `AddCWEInformation` (main.go lines 422-435): reads
`<cweDir>/<CWEID>.json` and unmarshals it into the post's CWEInfo; the
lookup function returns `none` when the file is missing or does not
unmarshal, in which case the post is returned unchanged with the error. -/
def AddCWEInformation (bp : VulnerabilityPost) (cweDir : String → Option WeaknessType) :
    VulnerabilityPost × Except String Unit :=
  match cweDir bp.Vulnerability.CWEID with
  | none => (bp, .error "cwe lookup failed")
  | some w => ({ bp with Vulnerability := { bp.Vulnerability with CWEInfo := w } }, .ok ())

/-! ## The vulnerability post template (main.go lines 18-74) -/

def aquaMarker : List Char := "<!--- Add Aqua content below --->".data

/-- `fmt` rendering of a Go string slice (`%v`): `[a b c]`. -/
def showGoStringSlice (l : List String) : String :=
  "[" ++ String.intercalate " " l ++ "]"

/-- Execution of `vulnerabilityPostTemplate` on a post: Go `text/template`
semantics with the template's literal text and its whitespace-trimming
markers expanded by hand (every `if` block between the first and the CVSS
table is preceded by a trimming action, so the blank lines separating them
vanish; the blank lines after the description and before the CVSS table
remain). -/
def renderVulnerabilityPostTemplate (p : VulnerabilityPost) : List Char :=
  let v := p.Vulnerability
  let w := v.CWEInfo
  ("---\ntitle: \"" ++ p.Title ++ "\"\ndate: " ++ p.Date
    ++ "\ndraft: false\n---\n\n### Description\n" ++ v.Description ++ "\n\n").data
  ++ (if w.Name ≠ "" then ("\n#### Title\n" ++ w.Name ++ "\n").data else [])
  ++ (if w.Description ≠ "" then ("\n#### Description\n" ++ w.Description ++ "\n").data else [])
  ++ (if w.ExtendedDescription ≠ [] then
        "\n#### Extended Description".data
          ++ (w.ExtendedDescription.map (fun ed => '\n' :: ed.data)).flatten ++ "\n".data
      else [])
  ++ (if w.CommonConsequences.Consequence ≠ [] then
        "\n#### Common Consequences".data
          ++ (w.CommonConsequences.Consequence.map
              (fun cons => ("\nScope: " ++ showGoStringSlice cons.Scope
                ++ "\n\nImpact: " ++ showGoStringSlice cons.Impact ++ "\n").data)).flatten
          ++ "\n".data
      else [])
  ++ (if w.PotentialMitigations.Mitigation ≠ [] then
        "\n#### Potential Mitigations".data
          ++ (w.PotentialMitigations.Mitigation.map
              (fun m => (m.Description.map (fun d => "\n- ".data ++ d.data)).flatten)).flatten
          ++ "\n".data
      else [])
  ++ (if w.RelatedAttackPatterns.RelatedAttackPattern ≠ [] then
        "\n#### Related Attack Patterns".data
          ++ (w.RelatedAttackPatterns.RelatedAttackPattern.map
              (fun atk => ("\n- https://cwe.mitre.org/data/definitions/"
                ++ toString atk.CAPECID ++ ".html").data)).flatten
          ++ "\n".data
      else [])
  ++ ("\n\n### CVSS\n| Version | Vector           | Score  |\n| ------------- |:-------------| -----:|\n| V2      | "
      ++ v.CVSS.V2Vector ++ " | " ++ goFormatFloat v.CVSS.V2Score ++ " |\n| V3      | "
      ++ v.CVSS.V3Vector ++ " | " ++ goFormatFloat v.CVSS.V3Score ++ " |\n\n### Dates\n- Published: "
      ++ v.Dates.Published ++ "\n- Modified: " ++ v.Dates.Modified ++ "\n\n### References").data
  ++ (v.References.map (fun r => "\n- ".data ++ r.data)).flatten
  ++ "\n\n".data
  ++ aquaMarker

/-- `GetCustomContentFromMarkdown` (main.go lines 296-306): read the file
(errors ignored — unreadable behaves like empty), split on the sentinel,
return "" when the split has at most one field, else the whitespace-trimmed
second field. -/
def GetCustomContentFromMarkdown (file : Option (List Char)) : List Char :=
  let b := file.getD []
  match splitSub aquaMarker b with
  | [] => []
  | [_] => []
  | _ :: c1 :: _ => goTrimSpace c1

/-- `VulnerabilityPostToMarkdown` (main.go lines 247-258): template output,
then `"\n" + customContent` when the custom content is non-empty. -/
def VulnerabilityPostToMarkdown (blog : VulnerabilityPost) (customContent : List Char) : List Char :=
  renderVulnerabilityPostTemplate blog
    ++ (if customContent ≠ [] then '\n' :: customContent else [])

/-- The file-content update one record performs inside
`generateVulnerabilityPages` (main.go lines 404-417): the output is opened
with `O_RDWR|O_CREATE` and NOT truncated unless custom content was found, so
when no custom content exists the fresh render only overwrites a prefix and
any longer tail of the old file survives. -/
def generateVulnerabilityFileContent (bp : VulnerabilityPost) (old : List Char) : List Char :=
  let cc := GetCustomContentFromMarkdown (some old)
  if cc = [] then
    VulnerabilityPostToMarkdown bp cc ++ old.drop (VulnerabilityPostToMarkdown bp cc).length
  else VulnerabilityPostToMarkdown bp cc

/-- Output file name of a vulnerability record:
`fmt.Sprintf("%s.md", bp.Title)` (main.go line 404). -/
def vulnOutputFileName (bp : VulnerabilityPost) : String := bp.Title ++ ".md"

/-! ## ParseRegoPolicyFile (main.go lines 308-345)

`strings.Index(rego, "package main")` is used unchecked: when the substring
is absent the index is -1 and `rego[:idx]` panics with a slice bounds error,
halting the whole pass — modelled by the `panicked` outcome.  `none` input
models a read error (returned as an error and skipped by the caller). -/

inductive RegoParseResult where
  | ok (rp : RegoPost)
  | err
  | panicked
deriving DecidableEq, Repr, Inhabited

/-- `time.Unix(1594669401, 0).UTC().String()`. -/
def regoDateString : String := "2020-07-13 19:43:21 +0000 UTC"

/-- One line of the metadata loop (main.go lines 322-342): strip `@` and `#`,
split at the first `:`, and assign the trimmed value by lower-cased key.
Note the source maps the `id` key to the post Title and the `title` key to
`Rego.ID`. -/
def regoMetadataStep (rp : RegoPost) (line : List Char) : RegoPost :=
  let str := line.filter (fun c => c != '@' && c != '#')
  match findSub [':'] str with
  | none => rp
  | some (k, v) =>
      let val : String := ⟨goTrimSpace v⟩
      let key : String := ⟨goToLower (goTrimSpace k)⟩
      if key = "id" then { rp with Title := val }
      else if key = "description" then
        { rp with Rego := { rp.Rego with Description := val } }
      else if key = "recommended_actions" then
        { rp with Rego := { rp.Rego with RecommendedActions := val } }
      else if key = "severity" then
        { rp with Rego := { rp.Rego with Severity := val } }
      else if key = "title" then
        { rp with Rego := { rp.Rego with ID := val } }
      else rp

def ParseRegoPolicyFile (content : Option String) : RegoParseResult :=
  match content with
  | none => .err
  | some s =>
      match findSub "package main".data s.data with
      | none => .panicked
      | some (metadata, after) =>
          let rp0 : RegoPost :=
            { Layout := "regoPolicy", Title := "", By := "Aqua Security",
              Date := regoDateString,
              Rego := { ID := "", Description := "", Links := [], Severity := "",
                        Policy := ⟨goTrimSpace ("package main".data ++ after)⟩,
                        RecommendedActions := "" } }
          .ok ((splitSub ['\n'] metadata).foldl regoMetadataStep rp0)

/-- Execution of `regoPolicyPostTemplate` (main.go lines 76-97) on a post. -/
def renderRegoPolicyPostTemplate (rp : RegoPost) : List Char :=
  ("---\ntitle: \"" ++ rp.Title ++ "\"\ndate: " ++ rp.Date
    ++ "\ndraft: false\n---\n\n### " ++ rp.Rego.ID ++ "\n\n### Description\n"
    ++ rp.Rego.Description ++ "\n\n### Severity\n" ++ rp.Rego.Severity
    ++ "\n\n### Recommended Actions \n" ++ rp.Rego.RecommendedActions
    ++ "\n\n### Rego Policy\n```\n" ++ rp.Rego.Policy ++ "\n```\n### Links"
    ++ String.join (rp.Rego.Links.map (fun l => "\n- " ++ l))
    ++ "\n").data

/-- `RegoPostToMarkdown` (main.go lines 260-267). -/
def RegoPostToMarkdown (rp : RegoPost) : List Char := renderRegoPolicyPostTemplate rp

/-- Output file name of a Rego policy record:
`fmt.Sprintf("%s.md", rp.Title)` (main.go line 450). -/
def regoOutputFileName (rp : RegoPost) : String := rp.Title ++ ".md"

/-- `GetAllFilesOfKind` (main.go lines 281-294). -/
def GetAllFilesOfKind (files : List String) (include' exclude : String) : List String :=
  files.filter (fun f => goContains f.data include'.data && !goContains f.data exclude.data)

/-! ## The generator passes as folds

The output directory is an association list from file name to content
(`List.lookup` finds the most recent write).  `createFails` and `writeFails`
are oracles (sets of file names) for `os.OpenFile`/`os.Create` and
template-execution failures; a failed write is modelled as failing before any
byte is written.  The `log` collects the `log.Printf` skip events. -/

structure GenState where
  fs : List (String × List Char)
  log : List String
deriving Inhabited, Repr

/-- One iteration of the loop in `generateVulnerabilityPages`
(main.go lines 394-419). -/
def vulnStep (cweDir : String → Option WeaknessType) (createFails writeFails : List String)
    (st : GenState) (file : String × Option VulnJson) : GenState :=
  match ParseVulnerabilityJSONFile file.2 with
  | .error _ => { st with log := st.log ++ ["unable to parse file: " ++ file.1 ++ ", skipping..."] }
  | .ok bp0 =>
      let bp := (AddCWEInformation bp0 cweDir).1
      let name := vulnOutputFileName bp
      if name ∈ createFails then
        { st with log := st.log ++ ["unable to create file: " ++ file.1 ++ ", skipping..."] }
      else
        let old := (st.fs.lookup name).getD []
        let cc := GetCustomContentFromMarkdown (some old)
        if name ∈ writeFails then
          { st with fs := (name, if cc = [] then old else []) :: st.fs,
                    log := st.log ++ ["unable to write file: " ++ file.1 ++ ", skipping..."] }
        else { st with fs := (name, generateVulnerabilityFileContent bp old) :: st.fs }

/-- `generateVulnerabilityPages` (main.go lines 389-420) over a listed input
directory. -/
def generateVulnerabilityPages (cweDir : String → Option WeaknessType)
    (createFails writeFails : List String) (files : List (String × Option VulnJson)) : GenState :=
  files.foldl (vulnStep cweDir createFails writeFails) ⟨[], []⟩

structure RegoGenState where
  fs : List (String × List Char)
  log : List String
  panicked : Bool
deriving Inhabited, Repr

/-- One iteration of the loop in `generateRegoPolicyPages` (main.go lines
443-460); once a parse has panicked the process is dead, so later files are
untouched. -/
def regoStep (createFails writeFails : List String) (st : RegoGenState)
    (file : String × Option String) : RegoGenState :=
  if st.panicked then st
  else
    match ParseRegoPolicyFile file.2 with
    | .err => { st with log := st.log ++ ["unable to parse file: " ++ file.1 ++ ", skipping..."] }
    | .panicked => { st with panicked := true }
    | .ok rp =>
        let name := regoOutputFileName rp
        if name ∈ createFails then
          { st with log := st.log ++ ["unable to create file: " ++ file.1 ++ ", skipping..."] }
        else if name ∈ writeFails then
          { st with fs := (name, []) :: st.fs,
                    log := st.log ++ ["unable to write file: " ++ file.1 ++ ", skipping..."] }
        else { st with fs := (name, RegoPostToMarkdown rp) :: st.fs }

/-- `generateRegoPolicyPages` (main.go lines 437-461): list the directory,
keep names containing "rego" but not "_test", process sequentially. -/
def generateRegoPolicyPages (createFails writeFails : List String)
    (files : List (String × Option String)) : RegoGenState :=
  (files.filter (fun f => goContains f.1.data "rego".data && !goContains f.1.data "_test".data)).foldl
    (regoStep createFails writeFails) ⟨[], [], false⟩

/-! ## generateKubeHunterPages (docGen/kubehunter.go lines 15-84) -/

/-- The compiled regex `(?m)title: (.+)$` applied via `FindSubmatch`: the
leftmost position where the literal `title: ` is followed by at least one
non-newline character; the capture is the rest of that line. -/
def findTitle : List Char → Option (List Char)
  | [] => none
  | c :: rest =>
      if chkPre "title: ".data (c :: rest) then
        let line := ((c :: rest).drop 7).takeWhile (fun ch => ch != '\n')
        if line = [] then findTitle rest else some line
      else findTitle rest

/-- The front-matter block `fmt.Sprintf`-ed into the page
(kubehunter.go lines 38-56), substituted for the first `---`. -/
def kubeHunterHeader (title id : List Char) : List Char :=
  "---\navd_page_type: avd_page \nicon: kube-hunter\nshortName: ".data ++ title
    ++ "\nsource: Kube Hunter\naliases: [\n\t\"/kube-hunter/".data ++ id
    ++ "\"\t\n]\ncategory: misconfig\n\nremediations:\n  - kubernetes\n\nbreadcrumbs: \n  - name: Kubernetes\n    path: /misconfig/kubernetes\n\n\n".data

/-- The `strings.NewReplacer` pairs (kubehunter.go lines 57-64), in argument
order. -/
def kubeReplacerPairs (title : List Char) : List (List Char × List Char) :=
  [("# \x7b\x7b page.vid \x7d\x7d - \x7b\x7b page.title \x7d\x7d".data, []),
   ("vid".data, "id".data),
   ("categories: ".data, "types: ".data),
   ("## Remediation".data, "### Recommended Actions".data),
   ("## References".data, "### Links".data),
   ("## Issue description".data, "\n### ".data ++ title)]

/-- Content transformation of one kube-hunter page (kubehunter.go lines
35-65); the page path is its base name here. -/
def kubeTransform (pageName : String) (b : List Char) (title : List Char) : List Char :=
  let id := goToLower (goTrimSuffix pageName.data ".md".data)
  goMultiReplaceAll (kubeReplacerPairs title)
    (goReplaceFirst b "---".data (kubeHunterHeader title id))

structure KubeGenState where
  fs : List (String × List Char)
  log : List String
  fatal : Bool
deriving Inhabited, Repr

/-- One iteration of the loop in `generateKubeHunterPages` (kubehunter.go
lines 28-71): a read error is logged and skipped, a missing title line makes
`FindSubmatch(b)[1]` panic, and a write error hits `log.Fatalln` — both of
the latter kill the process, so the pass is dead afterwards (`fatal`). -/
def kubeStep (writeFails : List String) (st : KubeGenState)
    (file : String × Option (List Char)) : KubeGenState :=
  if st.fatal then st
  else
    match file.2 with
    | none => { st with log := st.log ++ ["unable to read original kube hunter doc: " ++ file.1] }
    | some b =>
        match findTitle b with
        | none => { st with fatal := true }
        | some title =>
            if file.1 ∈ writeFails then
              { st with log := st.log ++ ["unable to write kube hunter page: " ++ file.1],
                        fatal := true }
            else { st with fs := (file.1, kubeTransform file.1 b title) :: st.fs }

def generateKubeHunterPages (writeFails : List String)
    (files : List (String × Option (List Char))) : KubeGenState :=
  files.foldl (kubeStep writeFails) ⟨[], [], false⟩

/-! ## Characterisation of the custom-content scan -/

theorem aquaMarker_ne_nil : aquaMarker ≠ [] := by decide

/-- Spec-side restatement of the custom-content scan, following the claim's
words: the whitespace-trimmed text lying between the first and the second
occurrence of the sentinel marker; empty when the marker is absent or the
file cannot be read; everything after a second occurrence is discarded. -/
def specCustomContent (file : Option (List Char)) : List Char :=
  match file with
  | none => []
  | some s =>
      match findSub aquaMarker s with
      | none => []
      | some (_, rest) =>
          goTrimSpace (match findSub aquaMarker rest with
            | none => rest
            | some (b, _) => b)

theorem getCustomContent_characterization (file : Option (List Char)) :
    GetCustomContentFromMarkdown file = specCustomContent file := by
  cases file with
  | none => decide
  | some s =>
    simp only [GetCustomContentFromMarkdown, specCustomContent, Option.getD_some]
    cases h1 : findSub aquaMarker s with
    | none => rw [splitSub_of_none _ _ h1]
    | some ba =>
      obtain ⟨b, rest⟩ := ba
      rw [splitSub_of_some _ _ _ _ aquaMarker_ne_nil h1]
      show _ = goTrimSpace (match findSub aquaMarker rest with
        | none => rest
        | some (b, _) => b)
      cases h2 : findSub aquaMarker rest with
      | none => rw [splitSub_of_none _ _ h2]
      | some ba2 =>
        obtain ⟨b2, a2⟩ := ba2
        rw [splitSub_of_some _ _ _ _ aquaMarker_ne_nil h2]

/-- From `(splitSub pat s).tail = [[]]` (the separator occurs exactly once,
at the very end) recover the shape of the first occurrence. -/
theorem findSub_of_tail_single (pat s : List Char) (hp : pat ≠ [])
    (h : (splitSub pat s).tail = [[]]) : ∃ b, findSub pat s = some (b, []) := by
  cases h1 : findSub pat s with
  | none =>
    rw [splitSub_of_none _ _ h1] at h
    simp at h
  | some ba =>
    obtain ⟨b, a⟩ := ba
    rw [splitSub_of_some _ _ _ _ hp h1] at h
    simp only [List.tail_cons] at h
    cases h2 : findSub pat a with
    | none =>
      rw [splitSub_of_none _ _ h2] at h
      obtain rfl : a = [] := by simpa using h
      exact ⟨b, rfl⟩
    | some ba2 =>
      obtain ⟨b2, a2⟩ := ba2
      rw [splitSub_of_some _ _ _ _ hp h2] at h
      have hne := splitSub_ne_nil pat a2
      simp only [List.cons.injEq] at h
      exact absurd h.2 hne

theorem chkPre_append_right (p s t : List Char) (hlen : p.length ≤ s.length) :
    chkPre p (s ++ t) = chkPre p s := by
  induction p generalizing s with
  | nil => cases s <;> rfl
  | cons c p ih =>
    cases s with
    | nil => simp at hlen
    | cons d s =>
      simp only [List.cons_append, chkPre]
      congr 1
      exact ih s (by simpa using hlen)

/-- Appending after a string whose first separator occurrence ends exactly at
its end shifts the "after" part onto the appended text. -/
theorem findSub_append_of_end (pat r b t : List Char) (hp : pat ≠ [])
    (h : findSub pat r = some (b, [])) : findSub pat (r ++ t) = some (b, t) := by
  induction r generalizing b with
  | nil =>
    cases pat with
    | nil => exact absurd rfl hp
    | cons c p => simp [findSub, chkPre] at h
  | cons c cs ih =>
    by_cases hpre : chkPre pat (c :: cs) = true
    · obtain ⟨u, hu⟩ := (chkPre_iff pat (c :: cs)).1 hpre
      simp only [findSub, if_pos hpre, Option.some.injEq, Prod.mk.injEq] at h
      obtain ⟨hb, hdrop⟩ := h
      rw [hu] at hdrop
      rw [List.drop_left] at hdrop
      subst hdrop
      simp only [List.append_nil] at hu
      have hpre2 : chkPre pat ((c :: cs) ++ t) = true :=
        (chkPre_iff _ _).2 ⟨t, by rw [hu]⟩
      show findSub pat (c :: (cs ++ t)) = some (b, t)
      have : c :: (cs ++ t) = (c :: cs) ++ t := rfl
      simp only [findSub, this, if_pos hpre2]
      rw [← hb, hu, List.drop_left]
    · simp only [findSub, if_neg hpre] at h
      cases hf : findSub pat cs with
      | none => rw [hf] at h; simp at h
      | some ba =>
        rw [hf] at h
        obtain ⟨b', a'⟩ := ba
        obtain ⟨hb, ha⟩ : c :: b' = b ∧ a' = ([] : List Char) := by simpa using h
        subst ha
        have hlen : pat.length ≤ cs.length := by
          have := findSub_decomp pat cs b' [] hf
          rw [this]
          simp
        have hpre2 : chkPre pat (c :: (cs ++ t)) = false := by
          have h1 : (c :: (cs ++ t)) = (c :: cs) ++ t := rfl
          rw [h1, chkPre_append_right pat (c :: cs) t (by simpa using Nat.le_succ_of_le hlen)]
          simpa using hpre
        show findSub pat (c :: (cs ++ t)) = some (b, t)
        simp only [findSub]
        rw [if_neg (by simp [hpre2])]
        rw [ih b' hf]
        simp [← hb]

theorem getCustom_end_marker (r A : List Char) (h : findSub aquaMarker r = some (A, [])) :
    GetCustomContentFromMarkdown (some r) = [] := by
  rw [getCustomContent_characterization]
  simp only [specCustomContent]
  rw [h]
  show goTrimSpace (match findSub aquaMarker ([] : List Char) with
    | none => ([] : List Char)
    | some (b, _) => b) = []
  decide

theorem getCustom_append_after_marker (r A t : List Char)
    (h : findSub aquaMarker r = some (A, [])) :
    GetCustomContentFromMarkdown (some (r ++ t)) =
      goTrimSpace (match findSub aquaMarker t with | none => t | some (b, _) => b) := by
  rw [getCustomContent_characterization]
  simp only [specCustomContent]
  rw [findSub_append_of_end aquaMarker r A t aquaMarker_ne_nil h]

theorem genFileContent_nil (bp : VulnerabilityPost) :
    generateVulnerabilityFileContent bp [] = renderVulnerabilityPostTemplate bp := by
  have hcc : GetCustomContentFromMarkdown (some ([] : List Char)) = [] := by decide
  simp [generateVulnerabilityFileContent, hcc, VulnerabilityPostToMarkdown]

/-! ## Claim C9 -/

/-- C9: for every prior output file, `GetCustomContentFromMarkdown` returns
exactly the whitespace-trimmed text lying between the first and second
occurrences of the sentinel marker; when the marker is absent or the file
cannot be read it returns the empty string; and when the marker occurs three
or more times everything after the second occurrence is discarded (only the
first split segment after the first marker is preserved). -/
theorem c9_custom_content_between_markers (file : Option (List Char)) :
    GetCustomContentFromMarkdown file = specCustomContent file :=
  getCustomContent_characterization file

/-! ## Claim C2 -/

/-- C2 (amended): re-running on unchanged input is byte-idempotent provided
the sentinel marker occurs in the rendered body exactly once, at its very
end (as it does whenever no rendered field value itself contains the
marker). -/
theorem c2_generation_idempotent (bp : VulnerabilityPost)
    (h : (splitSub aquaMarker (renderVulnerabilityPostTemplate bp)).tail = [[]]) :
    generateVulnerabilityFileContent bp (generateVulnerabilityFileContent bp [])
      = generateVulnerabilityFileContent bp [] := by
  obtain ⟨A, hA⟩ := findSub_of_tail_single aquaMarker _ aquaMarker_ne_nil h
  rw [genFileContent_nil]
  have hcc := getCustom_end_marker _ A hA
  simp [generateVulnerabilityFileContent, hcc, VulnerabilityPostToMarkdown,
    List.drop_length]

def jC2w : VulnJson :=
  { cveId := some "CVE-2019-0101", descriptionValue := some "A plain description." }

def bpC2w : VulnerabilityPost :=
  (ParseVulnerabilityJSONFile (some jC2w)).toOption.getD default

theorem c2_generation_idempotent_witness :
    generateVulnerabilityFileContent bpC2w (generateVulnerabilityFileContent bpC2w [])
      = generateVulnerabilityFileContent bpC2w [] :=
  c2_generation_idempotent bpC2w (by decide)

def jC2x : VulnJson :=
  { cveId := some "CVE-2019-0102",
    descriptionValue := some "A<!--- Add Aqua content below --->B" }

def bpC2x : VulnerabilityPost :=
  (ParseVulnerabilityJSONFile (some jC2x)).toOption.getD default

/-- C2 counterexample: a record whose description itself contains the
sentinel marker.  The first run writes the rendered body; the second run
finds "custom content" between the description's marker and the final one,
truncates, and appends it — the file is not byte-identical. -/
theorem c2_counterexample :
    generateVulnerabilityFileContent bpC2x (generateVulnerabilityFileContent bpC2x [])
      ≠ generateVulnerabilityFileContent bpC2x [] := by decide

/-! ## Claim C1 -/

/-- C1 (amended): for an output file consisting of a rendered body (whose
sentinel occurs exactly once, at its end) followed by appended text, the
re-run writes the rendered body followed by a newline and the
whitespace-trimmed appended text cut at any further marker occurrence —
not the appended text verbatim; purely-whitespace appendages are left in
place unchanged instead. -/
theorem c1_appended_text_trimmed_on_rerun (bp : VulnerabilityPost) (t : List Char)
    (h : (splitSub aquaMarker (renderVulnerabilityPostTemplate bp)).tail = [[]]) :
    generateVulnerabilityFileContent bp (renderVulnerabilityPostTemplate bp ++ t) =
      (if goTrimSpace (match findSub aquaMarker t with | none => t | some (b, _) => b) = []
       then renderVulnerabilityPostTemplate bp ++ t
       else renderVulnerabilityPostTemplate bp
         ++ '\n' :: goTrimSpace (match findSub aquaMarker t with | none => t | some (b, _) => b)) := by
  obtain ⟨A, hA⟩ := findSub_of_tail_single aquaMarker _ aquaMarker_ne_nil h
  have hcc := getCustom_append_after_marker _ A t hA
  simp only [generateVulnerabilityFileContent, hcc]
  by_cases h0 :
      goTrimSpace (match findSub aquaMarker t with | none => t | some (b, _) => b) = []
  · rw [if_pos h0, if_pos h0]
    simp [VulnerabilityPostToMarkdown, h0, List.drop_left]
  · rw [if_neg h0, if_neg h0]
    simp [VulnerabilityPostToMarkdown, h0]

def jC1w : VulnJson :=
  { cveId := some "CVE-2018-0201", descriptionValue := some "Another flaw." }

def bpC1w : VulnerabilityPost :=
  (ParseVulnerabilityJSONFile (some jC1w)).toOption.getD default

theorem c1_appended_text_trimmed_witness :
    generateVulnerabilityFileContent bpC1w
        (renderVulnerabilityPostTemplate bpC1w ++ "\nnote  ".data) =
      (if goTrimSpace (match findSub aquaMarker "\nnote  ".data with
          | none => "\nnote  ".data | some (b, _) => b) = []
       then renderVulnerabilityPostTemplate bpC1w ++ "\nnote  ".data
       else renderVulnerabilityPostTemplate bpC1w
         ++ '\n' :: goTrimSpace (match findSub aquaMarker "\nnote  ".data with
              | none => "\nnote  ".data | some (b, _) => b)) :=
  c1_appended_text_trimmed_on_rerun bpC1w "\nnote  ".data (by decide)

def jC1x : VulnJson :=
  { cveId := some "CVE-2018-0202", descriptionValue := some "Padded flaw." }

def bpC1x : VulnerabilityPost :=
  (ParseVulnerabilityJSONFile (some jC1x)).toOption.getD default

/-- C1 counterexample: appending `"\nnote  "` (trailing spaces) below the
marker and re-running yields a file that nowhere contains that appended text
verbatim — it reappears whitespace-trimmed as `"\nnote"`. -/
theorem c1_counterexample :
    ¬ containsSub (generateVulnerabilityFileContent bpC1x
          (generateVulnerabilityFileContent bpC1x [] ++ "\nnote  ".data))
        "\nnote  ".data
    ∧ generateVulnerabilityFileContent bpC1x
          (generateVulnerabilityFileContent bpC1x [] ++ "\nnote  ".data)
        = generateVulnerabilityFileContent bpC1x [] ++ "\nnote".data := by decide

/-! ## Containment helpers at the String level -/

theorem containsSub_data_left (a b : String) (p : List Char) (h : containsSub a.data p) :
    containsSub (a ++ b).data p := by
  rw [String.data_append]
  exact containsSub_append_left _ _ _ h

theorem containsSub_data_right (a b : String) (p : List Char) (h : containsSub b.data p) :
    containsSub (a ++ b).data p := by
  rw [String.data_append]
  exact containsSub_append_right _ _ _ h

theorem containsSub_refl (p : List Char) : containsSub p p :=
  ⟨[], [], by simp⟩

theorem containsSub_refs_flatten (l : List String) (r : String) (h : r ∈ l) :
    containsSub ((l.map (fun x => "\n- ".data ++ x.data)).flatten) r.data := by
  induction l with
  | nil => cases h
  | cons x xs ih =>
    simp only [List.map_cons, List.flatten_cons]
    cases h with
    | head =>
      apply containsSub_append_left
      apply containsSub_append_right
      exact containsSub_refl _
    | tail _ hmem => exact containsSub_append_right _ _ _ (ih hmem)

/-! ## Claim C8 -/

def jC8 : VulnJson :=
  { cveId := some "CVE-2020-0001", descriptionValue := some "Example flaw." }

def bpC8 : VulnerabilityPost :=
  (ParseVulnerabilityJSONFile (some jC8)).toOption.getD default

/-- C8: the record with identifier CVE-2020-0001, description
`Example flaw.` and no references parses and renders to the output file
`CVE-2020-0001.md` whose Description section has body `Example flaw.` and
whose References section is empty (the heading is immediately followed by
the blank line and the sentinel marker that end the page). -/
theorem c8_concrete_example :
    ParseVulnerabilityJSONFile (some jC8) = .ok bpC8
    ∧ vulnOutputFileName bpC8 = "CVE-2020-0001.md"
    ∧ containsSub (renderVulnerabilityPostTemplate bpC8) "### Description\nExample flaw.\n".data
    ∧ containsSub (renderVulnerabilityPostTemplate bpC8)
        "### References\n\n<!--- Add Aqua content below --->".data := by
  refine ⟨rfl, rfl, by decide, by decide⟩

/-! ## Claim C10 -/

/-- C10: parsing never fails on a readable well-formed record whatever its
date fields hold; when `publishedDate`/`lastModifiedDate` is missing or does
not match the layout, the time-parse error is discarded and the
corresponding rendered date is the formatted zero time `0001-01-01T00:00Z`. -/
theorem c10_bad_dates_tolerated :
    (∀ j : VulnJson, (ParseVulnerabilityJSONFile (some j)).isOk = true)
    ∧ (∀ j bp, ParseVulnerabilityJSONFile (some j) = .ok bp →
        (goTimeParse (j.publishedDate.getD "") = none →
          bp.Vulnerability.Dates.Published = "0001-01-01T00:00Z")
        ∧ (goTimeParse (j.lastModifiedDate.getD "") = none →
          bp.Vulnerability.Dates.Modified = "0001-01-01T00:00Z")) := by
  constructor
  · intro j; rfl
  · intro j bp hparse
    simp only [ParseVulnerabilityJSONFile, Except.ok.injEq] at hparse
    subst hparse
    constructor
    · intro hfail
      show goFormatDateShort (goTimeParseOrZero (j.publishedDate.getD "")) = _
      rw [goTimeParseOrZero, hfail]
      decide
    · intro hfail
      show goFormatDateShort (goTimeParseOrZero (j.lastModifiedDate.getD "")) = _
      rw [goTimeParseOrZero, hfail]
      decide

def jC10w : VulnJson :=
  { cveId := some "CVE-2015-0001", publishedDate := none,
    lastModifiedDate := some "not-a-date" }

def bpC10w : VulnerabilityPost :=
  (ParseVulnerabilityJSONFile (some jC10w)).toOption.getD default

theorem c10_bad_dates_tolerated_witness :
    (ParseVulnerabilityJSONFile (some jC10w)).isOk = true
    ∧ bpC10w.Vulnerability.Dates.Published = "0001-01-01T00:00Z"
    ∧ bpC10w.Vulnerability.Dates.Modified = "0001-01-01T00:00Z" :=
  ⟨c10_bad_dates_tolerated.1 jC10w,
   (c10_bad_dates_tolerated.2 jC10w bpC10w rfl).1 (by decide),
   (c10_bad_dates_tolerated.2 jC10w bpC10w rfl).2 (by decide)⟩

/-! ## Claim C7 -/

/-- C7: the output file name is a deterministic function of the record's
identifier, `<identifier>.md`: for the vulnerability generator the name is
`<CVE id>.md` (the post title equals the vulnerability ID), equal
identifiers give equal names, and for the Rego generator the name is
`<Title>.md` where Title carries the record's `id` metadata. -/
theorem c7_output_name_deterministic :
    (∀ j bp, ParseVulnerabilityJSONFile (some j) = .ok bp →
        bp.Title = bp.Vulnerability.ID
        ∧ vulnOutputFileName bp = bp.Vulnerability.ID ++ ".md")
    ∧ (∀ j1 j2 bp1 bp2, ParseVulnerabilityJSONFile (some j1) = .ok bp1 →
        ParseVulnerabilityJSONFile (some j2) = .ok bp2 →
        bp1.Vulnerability.ID = bp2.Vulnerability.ID →
        vulnOutputFileName bp1 = vulnOutputFileName bp2)
    ∧ (∀ s rp, ParseRegoPolicyFile (some s) = .ok rp →
        regoOutputFileName rp = rp.Title ++ ".md") := by
  refine ⟨?_, ?_, ?_⟩
  · intro j bp hparse
    simp only [ParseVulnerabilityJSONFile, Except.ok.injEq] at hparse
    subst hparse
    exact ⟨rfl, rfl⟩
  · intro j1 j2 bp1 bp2 h1 h2 hid
    simp only [ParseVulnerabilityJSONFile, Except.ok.injEq] at h1 h2
    subst h1
    subst h2
    show (j1.cveId.getD "") ++ ".md" = (j2.cveId.getD "") ++ ".md"
    have hid' : (j1.cveId.getD "") = (j2.cveId.getD "") := hid
    rw [hid']
  · intro s rp _
    rfl

def jC7w : VulnJson := { cveId := some "CVE-2017-0300" }

def bpC7w : VulnerabilityPost :=
  (ParseVulnerabilityJSONFile (some jC7w)).toOption.getD default

def regoC7w : String := "# @id: KSV777\npackage main\ndeny = input.bad"

def rpC7w : RegoPost :=
  match ParseRegoPolicyFile (some regoC7w) with
  | .ok rp => rp
  | _ => default

theorem c7_output_name_deterministic_witness :
    (bpC7w.Title = bpC7w.Vulnerability.ID
      ∧ vulnOutputFileName bpC7w = bpC7w.Vulnerability.ID ++ ".md")
    ∧ vulnOutputFileName bpC7w = vulnOutputFileName bpC7w
    ∧ regoOutputFileName rpC7w = rpC7w.Title ++ ".md" :=
  ⟨c7_output_name_deterministic.1 jC7w bpC7w rfl,
   c7_output_name_deterministic.2.1 jC7w jC7w bpC7w bpC7w rfl rfl rfl,
   c7_output_name_deterministic.2.2 regoC7w rpC7w rfl⟩

/-! ## Claim C4 -/

/-- The rendered page with every CWE enrichment section omitted — the form
the spec asserts for a record whose enrichment lookup is absent
("enrichment fields empty/omitted"). -/
def renderVulnerabilityWithoutEnrichment (p : VulnerabilityPost) : List Char :=
  let v := p.Vulnerability
  ("---\ntitle: \"" ++ p.Title ++ "\"\ndate: " ++ p.Date
    ++ "\ndraft: false\n---\n\n### Description\n" ++ v.Description ++ "\n\n").data
  ++ ("\n\n### CVSS\n| Version | Vector           | Score  |\n| ------------- |:-------------| -----:|\n| V2      | "
      ++ v.CVSS.V2Vector ++ " | " ++ goFormatFloat v.CVSS.V2Score ++ " |\n| V3      | "
      ++ v.CVSS.V3Vector ++ " | " ++ goFormatFloat v.CVSS.V3Score ++ " |\n\n### Dates\n- Published: "
      ++ v.Dates.Published ++ "\n- Modified: " ++ v.Dates.Modified ++ "\n\n### References").data
  ++ (v.References.map (fun r => "\n- ".data ++ r.data)).flatten
  ++ "\n\n".data
  ++ aquaMarker

theorem render_zero_cwe (bp : VulnerabilityPost)
    (h : bp.Vulnerability.CWEInfo = zeroWeakness) :
    renderVulnerabilityPostTemplate bp = renderVulnerabilityWithoutEnrichment bp := by
  simp [renderVulnerabilityPostTemplate, renderVulnerabilityWithoutEnrichment, h, zeroWeakness]

/-- C4: a record whose CWE lookup file is absent still generates: the
enrichment error leaves the post unchanged, parsing left the CWE info at its
zero value, the page renders with every enrichment section omitted, and the
single-record pass still writes `<id>.md` with that content. -/
theorem c4_missing_enrichment_tolerated :
    ∀ j bp (cweDir : String → Option WeaknessType) (fname : String),
      ParseVulnerabilityJSONFile (some j) = .ok bp →
      cweDir bp.Vulnerability.CWEID = none →
      (AddCWEInformation bp cweDir).1 = bp
      ∧ bp.Vulnerability.CWEInfo = zeroWeakness
      ∧ renderVulnerabilityPostTemplate bp = renderVulnerabilityWithoutEnrichment bp
      ∧ generateVulnerabilityPages cweDir [] [] [(fname, some j)]
          = ⟨[(vulnOutputFileName bp, renderVulnerabilityWithoutEnrichment bp)], []⟩ := by
  intro j bp cweDir fname hparse hmiss
  have hzero : bp.Vulnerability.CWEInfo = zeroWeakness := by
    simp only [ParseVulnerabilityJSONFile, Except.ok.injEq] at hparse
    subst hparse
    rfl
  have hadd : (AddCWEInformation bp cweDir).1 = bp := by
    simp [AddCWEInformation, hmiss]
  have hcc : GetCustomContentFromMarkdown (some ([] : List Char)) = [] := by decide
  refine ⟨hadd, hzero, render_zero_cwe bp hzero, ?_⟩
  simp only [generateVulnerabilityPages, List.foldl_cons, List.foldl_nil, vulnStep, hparse,
    hadd, List.not_mem_nil, if_false, List.lookup_nil, Option.getD_none]
  rw [genFileContent_nil, render_zero_cwe bp hzero]

def jC4w : VulnJson :=
  { cveId := some "CVE-2014-0001", cweId := some "CWE-79",
    descriptionValue := some "XSS issue." }

def bpC4w : VulnerabilityPost :=
  (ParseVulnerabilityJSONFile (some jC4w)).toOption.getD default

theorem c4_missing_enrichment_tolerated_witness :
    (AddCWEInformation bpC4w (fun _ => none)).1 = bpC4w
    ∧ bpC4w.Vulnerability.CWEInfo = zeroWeakness
    ∧ renderVulnerabilityPostTemplate bpC4w = renderVulnerabilityWithoutEnrichment bpC4w
    ∧ generateVulnerabilityPages (fun _ => none) [] [] [("nvdcve-item.json", some jC4w)]
        = ⟨[(vulnOutputFileName bpC4w, renderVulnerabilityWithoutEnrichment bpC4w)], []⟩ :=
  c4_missing_enrichment_tolerated jC4w bpC4w (fun _ => none) "nvdcve-item.json" rfl rfl

/-! ## Claim C5 -/

theorem refStringTransform_plain (u : String) (h : hasSpecialChars u = false) :
    refStringTransform u = u := by
  have hall : ∀ c ∈ u.data, (c != '"') = true := by
    intro c hc
    have hne : (c == '"') = false := by
      cases hh : (c == '"') with
      | false => rfl
      | true =>
        have hany : u.data.any (fun c => c == '"' || c == '\\' || decide (c.toNat < 0x20)) = true :=
          List.any_eq_true.2 ⟨c, hc, by simp [hh]⟩
        have hfalse := h
        unfold hasSpecialChars at hfalse
        rw [hany] at hfalse
        exact Bool.noConfusion hfalse
    simp [bne, hne]
  unfold refStringTransform fastjsonStringRepr
  rw [if_neg (by rw [h]; simp)]
  have key : List.filter (fun c => c != '"') ('"' :: u.data ++ ['"']) = u.data := by
    rw [List.filter_append]
    rw [List.filter_cons]
    rw [if_neg (by simp)]
    rw [List.filter_eq_self.mpr hall]
    simp
  show String.mk (List.filter (fun c => c != '"') ('"' :: u.data ++ ['"'])) = u
  rw [key]

/-- C5 (amended): for every record, the rendered page contains the
identifier verbatim (in the title line) and the description with double
quotes and backslashes stripped; each reference appears as its JSON-quoted
representation with all double quotes removed, which equals the verbatim
reference whenever it has no double quote, backslash or control character
(for references with a backslash the page holds a Go-escaped doubled
backslash instead, so the verbatim/stripped form of the claim fails). -/
theorem c5_fields_preserved_in_render :
    ∀ j bp, ParseVulnerabilityJSONFile (some j) = .ok bp →
      containsSub (renderVulnerabilityPostTemplate bp) (j.cveId.getD "").data
      ∧ containsSub (renderVulnerabilityPostTemplate bp)
          (goStripQuotesBackslash (j.descriptionValue.getD "")).data
      ∧ ∀ u, u ∈ j.referenceUrls →
          containsSub (renderVulnerabilityPostTemplate bp) (refStringTransform u).data
          ∧ (hasSpecialChars u = false → refStringTransform u = u) := by
  intro j bp hparse
  simp only [ParseVulnerabilityJSONFile, Except.ok.injEq] at hparse
  subst hparse
  simp only [renderVulnerabilityPostTemplate]
  refine ⟨?_, ?_, ?_⟩
  · iterate 10 apply containsSub_append_left
    iterate 5 apply containsSub_data_left
    apply containsSub_data_right
    exact containsSub_refl _
  · iterate 10 apply containsSub_append_left
    apply containsSub_data_left
    apply containsSub_data_right
    exact containsSub_refl _
  · intro u hu
    refine ⟨?_, refStringTransform_plain u⟩
    iterate 2 apply containsSub_append_left
    apply containsSub_append_right
    exact containsSub_refs_flatten _ _ (List.mem_map_of_mem _ hu)

def jC5w : VulnJson :=
  { cveId := some "CVE-2016-0404", descriptionValue := some "Desc text.",
    referenceUrls := ["http://example.com/ref"] }

def bpC5w : VulnerabilityPost :=
  (ParseVulnerabilityJSONFile (some jC5w)).toOption.getD default

theorem c5_fields_preserved_in_render_witness :
    containsSub (renderVulnerabilityPostTemplate bpC5w) (jC5w.cveId.getD "").data
    ∧ containsSub (renderVulnerabilityPostTemplate bpC5w)
        (goStripQuotesBackslash (jC5w.descriptionValue.getD "")).data
    ∧ containsSub (renderVulnerabilityPostTemplate bpC5w)
        (refStringTransform "http://example.com/ref").data
    ∧ refStringTransform "http://example.com/ref" = "http://example.com/ref" :=
  ⟨(c5_fields_preserved_in_render jC5w bpC5w rfl).1,
   (c5_fields_preserved_in_render jC5w bpC5w rfl).2.1,
   ((c5_fields_preserved_in_render jC5w bpC5w rfl).2.2 "http://example.com/ref"
      (by decide)).1,
   ((c5_fields_preserved_in_render jC5w bpC5w rfl).2.2 "http://example.com/ref"
      (by decide)).2 (by decide)⟩

def jC5x : VulnJson :=
  { cveId := some "CVE-2016-0405", descriptionValue := some "d",
    referenceUrls := ["q\\q"] }

def bpC5x : VulnerabilityPost :=
  (ParseVulnerabilityJSONFile (some jC5x)).toOption.getD default

/-- C5 counterexample: a reference URL containing a backslash.  The page
contains neither the literal value `q\q` nor its quote/backslash-stripped
form `qq`; it contains the Go-escaped `q\\q` instead. -/
theorem c5_counterexample :
    ¬ containsSub (renderVulnerabilityPostTemplate bpC5x) "q\\q".data
    ∧ ¬ containsSub (renderVulnerabilityPostTemplate bpC5x) "qq".data
    ∧ containsSub (renderVulnerabilityPostTemplate bpC5x) "q\\\\q".data := by
  refine ⟨by decide, by decide, by decide⟩

/-! ## Claim C3 -/

def vulnFilesC3 : List (String × Option VulnJson) :=
  [("good1.json", some { cveId := some "CVE-2013-0001" }),
   ("corrupt.json", none),
   ("good2.json", some { cveId := some "CVE-2013-0002" })]

def regoFilesC3 : List (String × Option String) :=
  [("allowed_caps.rego", some "# @id: KSV900\npackage main\ndefault allow = false"),
   ("broken.rego", some "this file has no package clause"),
   ("host_pid.rego", some "# @id: KSV901\npackage main\ndefault allow = false")]

/-- C3 exhibit: the vulnerability pass does skip an unparseable file, log it
and process both siblings; but in the Rego pass a file without the
`package main` needle drives `strings.Index` to -1 and `rego[:idx]` panics,
halting the whole pass — the later sibling is never processed. -/
theorem c3_malformed_input_halts_rego_pass :
    ((generateVulnerabilityPages (fun _ => none) [] [] vulnFilesC3).fs.lookup
        "CVE-2013-0001.md").isSome = true
    ∧ ((generateVulnerabilityPages (fun _ => none) [] [] vulnFilesC3).fs.lookup
        "CVE-2013-0002.md").isSome = true
    ∧ (generateVulnerabilityPages (fun _ => none) [] [] vulnFilesC3).log
        = ["unable to parse file: corrupt.json, skipping..."]
    ∧ ParseRegoPolicyFile (some "this file has no package clause") = .panicked
    ∧ (generateRegoPolicyPages [] [] regoFilesC3).panicked = true
    ∧ ((generateRegoPolicyPages [] [] regoFilesC3).fs.lookup "KSV900.md").isSome = true
    ∧ (generateRegoPolicyPages [] [] regoFilesC3).fs.lookup "KSV901.md" = none := by
  refine ⟨by decide, by decide, by decide, by decide, by decide, by decide, by decide⟩

/-! ## Run-level lemmas for claim C6 -/

/-- The log entries one file contributes in `generateVulnerabilityPages`;
the skip messages depend only on the file and the failure oracles, never on
the directory state. -/
def vulnStepLog (cweDir : String → Option WeaknessType) (createFails writeFails : List String)
    (file : String × Option VulnJson) : List String :=
  match ParseVulnerabilityJSONFile file.2 with
  | .error _ => ["unable to parse file: " ++ file.1 ++ ", skipping..."]
  | .ok bp0 =>
      let bp := (AddCWEInformation bp0 cweDir).1
      let name := vulnOutputFileName bp
      if name ∈ createFails then ["unable to create file: " ++ file.1 ++ ", skipping..."]
      else if name ∈ writeFails then ["unable to write file: " ++ file.1 ++ ", skipping..."]
      else []

theorem vulnStep_log (cw : String → Option WeaknessType) (cf wf : List String)
    (f : String × Option VulnJson) (fs : List (String × List Char)) (lg : List String) :
    (vulnStep cw cf wf ⟨fs, lg⟩ f).log = lg ++ vulnStepLog cw cf wf f := by
  unfold vulnStep vulnStepLog
  cases hp : ParseVulnerabilityJSONFile f.2 with
  | error e => rfl
  | ok bp0 =>
    simp only []
    by_cases hc : vulnOutputFileName (AddCWEInformation bp0 cw).1 ∈ cf
    · rw [if_pos hc, if_pos hc]
    · rw [if_neg hc, if_neg hc]
      by_cases hw : vulnOutputFileName (AddCWEInformation bp0 cw).1 ∈ wf
      · rw [if_pos hw, if_pos hw]
      · rw [if_neg hw, if_neg hw]
        simp

theorem vulnStep_fs_indep (cw : String → Option WeaknessType) (cf wf : List String)
    (f : String × Option VulnJson) (fs : List (String × List Char)) (lg lg' : List String) :
    (vulnStep cw cf wf ⟨fs, lg⟩ f).fs = (vulnStep cw cf wf ⟨fs, lg'⟩ f).fs := by
  unfold vulnStep
  cases hp : ParseVulnerabilityJSONFile f.2 with
  | error e => rfl
  | ok bp0 =>
    simp only []
    by_cases hc : vulnOutputFileName (AddCWEInformation bp0 cw).1 ∈ cf
    · rw [if_pos hc, if_pos hc]
    · rw [if_neg hc, if_neg hc]
      by_cases hw : vulnOutputFileName (AddCWEInformation bp0 cw).1 ∈ wf
      · rw [if_pos hw, if_pos hw]
      · rw [if_neg hw, if_neg hw]

theorem vulnRun_fs_indep (cw : String → Option WeaknessType) (cf wf : List String) :
    ∀ (l : List (String × Option VulnJson)) fs lg lg',
      (l.foldl (vulnStep cw cf wf) ⟨fs, lg⟩).fs = (l.foldl (vulnStep cw cf wf) ⟨fs, lg'⟩).fs := by
  intro l
  induction l with
  | nil => intro fs lg lg'; rfl
  | cons f t ih =>
    intro fs lg lg'
    show (t.foldl (vulnStep cw cf wf) (vulnStep cw cf wf ⟨fs, lg⟩ f)).fs = _
    have h1 := vulnStep_fs_indep cw cf wf f fs lg lg'
    calc (t.foldl (vulnStep cw cf wf) (vulnStep cw cf wf ⟨fs, lg⟩ f)).fs
        = (t.foldl (vulnStep cw cf wf)
            ⟨(vulnStep cw cf wf ⟨fs, lg⟩ f).fs, (vulnStep cw cf wf ⟨fs, lg⟩ f).log⟩).fs := rfl
      _ = (t.foldl (vulnStep cw cf wf)
            ⟨(vulnStep cw cf wf ⟨fs, lg'⟩ f).fs, (vulnStep cw cf wf ⟨fs, lg⟩ f).log⟩).fs := by
            rw [h1]
      _ = (t.foldl (vulnStep cw cf wf)
            ⟨(vulnStep cw cf wf ⟨fs, lg'⟩ f).fs, (vulnStep cw cf wf ⟨fs, lg'⟩ f).log⟩).fs :=
            ih _ _ _
      _ = (t.foldl (vulnStep cw cf wf) (vulnStep cw cf wf ⟨fs, lg'⟩ f)).fs := rfl

theorem vulnRun_log (cw : String → Option WeaknessType) (cf wf : List String) :
    ∀ (l : List (String × Option VulnJson)) fs lg,
      (l.foldl (vulnStep cw cf wf) ⟨fs, lg⟩).log
        = lg ++ (l.map (vulnStepLog cw cf wf)).flatten := by
  intro l
  induction l with
  | nil => intro fs lg; simp
  | cons f t ih =>
    intro fs lg
    show (t.foldl (vulnStep cw cf wf) (vulnStep cw cf wf ⟨fs, lg⟩ f)).log = _
    have hstep := vulnStep_log cw cf wf f fs lg
    calc (t.foldl (vulnStep cw cf wf) (vulnStep cw cf wf ⟨fs, lg⟩ f)).log
        = (t.foldl (vulnStep cw cf wf)
            ⟨(vulnStep cw cf wf ⟨fs, lg⟩ f).fs, (vulnStep cw cf wf ⟨fs, lg⟩ f).log⟩).log := rfl
      _ = (vulnStep cw cf wf ⟨fs, lg⟩ f).log ++ (t.map (vulnStepLog cw cf wf)).flatten :=
            ih _ _
      _ = lg ++ vulnStepLog cw cf wf f ++ (t.map (vulnStepLog cw cf wf)).flatten := by
            rw [hstep]
      _ = lg ++ ((f :: t).map (vulnStepLog cw cf wf)).flatten := by simp

theorem lookup_cons_ne (n k : String) (v : List Char) (l : List (String × List Char))
    (h : n ≠ k) : List.lookup n ((k, v) :: l) = List.lookup n l := by
  have hb : (n == k) = false := by simpa using h
  simp [List.lookup, hb]

theorem lookup_cons_self (n : String) (v : List Char) (l : List (String × List Char)) :
    List.lookup n ((n, v) :: l) = some v := by
  simp [List.lookup]

theorem vulnStep_frame (cw : String → Option WeaknessType) (cf wf : List String)
    (f : String × Option VulnJson) (nm : String) (fs1 fs2 : List (String × List Char))
    (lg1 lg2 : List String)
    (hfs : ∀ n, n ≠ nm → List.lookup n fs1 = List.lookup n fs2) :
    ∀ n, n ≠ nm → List.lookup n (vulnStep cw cf wf ⟨fs1, lg1⟩ f).fs
      = List.lookup n (vulnStep cw cf wf ⟨fs2, lg2⟩ f).fs := by
  intro n hn
  unfold vulnStep
  cases hp : ParseVulnerabilityJSONFile f.2 with
  | error e => exact hfs n hn
  | ok bp0 =>
    simp only []
    by_cases hc : vulnOutputFileName (AddCWEInformation bp0 cw).1 ∈ cf
    · rw [if_pos hc, if_pos hc]; exact hfs n hn
    · rw [if_neg hc, if_neg hc]
      by_cases heq : vulnOutputFileName (AddCWEInformation bp0 cw).1 = nm
      · have hn' : n ≠ vulnOutputFileName (AddCWEInformation bp0 cw).1 := by
          rw [heq]; exact hn
        by_cases hw : vulnOutputFileName (AddCWEInformation bp0 cw).1 ∈ wf
        · rw [if_pos hw, if_pos hw]
          rw [lookup_cons_ne n _ _ _ hn', lookup_cons_ne n _ _ _ hn']
          exact hfs n hn
        · rw [if_neg hw, if_neg hw]
          rw [lookup_cons_ne n _ _ _ hn', lookup_cons_ne n _ _ _ hn']
          exact hfs n hn
      · have hold : List.lookup (vulnOutputFileName (AddCWEInformation bp0 cw).1) fs1
            = List.lookup (vulnOutputFileName (AddCWEInformation bp0 cw).1) fs2 :=
          hfs _ heq
        rw [hold]
        by_cases hw : vulnOutputFileName (AddCWEInformation bp0 cw).1 ∈ wf
        · rw [if_pos hw, if_pos hw]
          by_cases hnn : n = vulnOutputFileName (AddCWEInformation bp0 cw).1
          · subst hnn; rw [lookup_cons_self, lookup_cons_self]
          · rw [lookup_cons_ne n _ _ _ hnn, lookup_cons_ne n _ _ _ hnn]
            exact hfs n hn
        · rw [if_neg hw, if_neg hw]
          by_cases hnn : n = vulnOutputFileName (AddCWEInformation bp0 cw).1
          · subst hnn; rw [lookup_cons_self, lookup_cons_self]
          · rw [lookup_cons_ne n _ _ _ hnn, lookup_cons_ne n _ _ _ hnn]
            exact hfs n hn

theorem vulnRun_frame (cw : String → Option WeaknessType) (cf wf : List String) :
    ∀ (l : List (String × Option VulnJson)) (nm : String) fs1 fs2 lg1 lg2,
      (∀ n, n ≠ nm → List.lookup n fs1 = List.lookup n fs2) →
      ∀ n, n ≠ nm →
        List.lookup n (l.foldl (vulnStep cw cf wf) ⟨fs1, lg1⟩).fs
          = List.lookup n (l.foldl (vulnStep cw cf wf) ⟨fs2, lg2⟩).fs := by
  intro l
  induction l with
  | nil => intro nm fs1 fs2 lg1 lg2 hfs n hn; exact hfs n hn
  | cons f t ih =>
    intro nm fs1 fs2 lg1 lg2 hfs n hn
    exact ih nm (vulnStep cw cf wf ⟨fs1, lg1⟩ f).fs (vulnStep cw cf wf ⟨fs2, lg2⟩ f).fs
      (vulnStep cw cf wf ⟨fs1, lg1⟩ f).log (vulnStep cw cf wf ⟨fs2, lg2⟩ f).log
      (vulnStep_frame cw cf wf f nm fs1 fs2 lg1 lg2 hfs) n hn

theorem regoStep_frame (cf wf : List String) (f : String × Option String) (nm : String)
    (fs1 fs2 : List (String × List Char)) (lg1 lg2 : List String) (pk1 pk2 : Bool)
    (hpk : pk1 = pk2)
    (hfs : ∀ n, n ≠ nm → List.lookup n fs1 = List.lookup n fs2) :
    (regoStep cf wf ⟨fs1, lg1, pk1⟩ f).panicked = (regoStep cf wf ⟨fs2, lg2, pk2⟩ f).panicked
    ∧ ∀ n, n ≠ nm → List.lookup n (regoStep cf wf ⟨fs1, lg1, pk1⟩ f).fs
        = List.lookup n (regoStep cf wf ⟨fs2, lg2, pk2⟩ f).fs := by
  subst hpk
  unfold regoStep
  cases pk1 with
  | true => exact ⟨rfl, hfs⟩
  | false =>
    simp only [Bool.false_eq_true, if_false]
    cases hp : ParseRegoPolicyFile f.2 with
    | err => exact ⟨rfl, hfs⟩
    | panicked => exact ⟨rfl, hfs⟩
    | ok rp =>
      simp only []
      by_cases hc : regoOutputFileName rp ∈ cf
      · rw [if_pos hc, if_pos hc]; exact ⟨rfl, hfs⟩
      · rw [if_neg hc, if_neg hc]
        by_cases hw : regoOutputFileName rp ∈ wf
        · rw [if_pos hw, if_pos hw]
          refine ⟨rfl, ?_⟩
          intro n hn
          by_cases hnn : n = regoOutputFileName rp
          · subst hnn; rw [lookup_cons_self, lookup_cons_self]
          · rw [lookup_cons_ne n _ _ _ hnn, lookup_cons_ne n _ _ _ hnn]
            exact hfs n hn
        · rw [if_neg hw, if_neg hw]
          refine ⟨rfl, ?_⟩
          intro n hn
          by_cases hnn : n = regoOutputFileName rp
          · subst hnn; rw [lookup_cons_self, lookup_cons_self]
          · rw [lookup_cons_ne n _ _ _ hnn, lookup_cons_ne n _ _ _ hnn]
            exact hfs n hn

theorem regoRun_frame (cf wf : List String) :
    ∀ (l : List (String × Option String)) (nm : String) fs1 fs2 lg1 lg2 pk1 pk2,
      pk1 = pk2 →
      (∀ n, n ≠ nm → List.lookup n fs1 = List.lookup n fs2) →
      (l.foldl (regoStep cf wf) ⟨fs1, lg1, pk1⟩).panicked
          = (l.foldl (regoStep cf wf) ⟨fs2, lg2, pk2⟩).panicked
      ∧ ∀ n, n ≠ nm →
          List.lookup n (l.foldl (regoStep cf wf) ⟨fs1, lg1, pk1⟩).fs
            = List.lookup n (l.foldl (regoStep cf wf) ⟨fs2, lg2, pk2⟩).fs := by
  intro l
  induction l with
  | nil =>
    intro nm fs1 fs2 lg1 lg2 pk1 pk2 hpk hfs
    subst hpk
    exact ⟨rfl, hfs⟩
  | cons f t ih =>
    intro nm fs1 fs2 lg1 lg2 pk1 pk2 hpk hfs
    obtain ⟨hpk', hfr⟩ := regoStep_frame cf wf f nm fs1 fs2 lg1 lg2 pk1 pk2 hpk hfs
    exact ih nm (regoStep cf wf ⟨fs1, lg1, pk1⟩ f).fs (regoStep cf wf ⟨fs2, lg2, pk2⟩ f).fs
      (regoStep cf wf ⟨fs1, lg1, pk1⟩ f).log (regoStep cf wf ⟨fs2, lg2, pk2⟩ f).log
      (regoStep cf wf ⟨fs1, lg1, pk1⟩ f).panicked (regoStep cf wf ⟨fs2, lg2, pk2⟩ f).panicked
      hpk' hfr

theorem regoStep_fs_indep (cf wf : List String) (f : String × Option String)
    (fs : List (String × List Char)) (lg lg' : List String) (pk : Bool) :
    (regoStep cf wf ⟨fs, lg, pk⟩ f).fs = (regoStep cf wf ⟨fs, lg', pk⟩ f).fs
    ∧ (regoStep cf wf ⟨fs, lg, pk⟩ f).panicked = (regoStep cf wf ⟨fs, lg', pk⟩ f).panicked := by
  unfold regoStep
  cases pk with
  | true => exact ⟨rfl, rfl⟩
  | false =>
    simp only [Bool.false_eq_true, if_false]
    cases hp : ParseRegoPolicyFile f.2 with
    | err => exact ⟨rfl, rfl⟩
    | panicked => exact ⟨rfl, rfl⟩
    | ok rp =>
      simp only []
      by_cases hc : regoOutputFileName rp ∈ cf
      · rw [if_pos hc, if_pos hc]; exact ⟨rfl, rfl⟩
      · rw [if_neg hc, if_neg hc]
        by_cases hw : regoOutputFileName rp ∈ wf
        · rw [if_pos hw, if_pos hw]; exact ⟨rfl, rfl⟩
        · rw [if_neg hw, if_neg hw]; exact ⟨rfl, rfl⟩

theorem regoRun_fs_indep (cf wf : List String) :
    ∀ (l : List (String × Option String)) fs lg lg' pk,
      (l.foldl (regoStep cf wf) ⟨fs, lg, pk⟩).fs
        = (l.foldl (regoStep cf wf) ⟨fs, lg', pk⟩).fs := by
  intro l
  induction l with
  | nil => intro fs lg lg' pk; rfl
  | cons f t ih =>
    intro fs lg lg' pk
    obtain ⟨h1, h2⟩ := regoStep_fs_indep cf wf f fs lg lg' pk
    calc (t.foldl (regoStep cf wf) (regoStep cf wf ⟨fs, lg, pk⟩ f)).fs
        = (t.foldl (regoStep cf wf)
            ⟨(regoStep cf wf ⟨fs, lg, pk⟩ f).fs, (regoStep cf wf ⟨fs, lg, pk⟩ f).log,
              (regoStep cf wf ⟨fs, lg, pk⟩ f).panicked⟩).fs := rfl
      _ = (t.foldl (regoStep cf wf)
            ⟨(regoStep cf wf ⟨fs, lg', pk⟩ f).fs, (regoStep cf wf ⟨fs, lg, pk⟩ f).log,
              (regoStep cf wf ⟨fs, lg', pk⟩ f).panicked⟩).fs := by rw [h1, h2]
      _ = (t.foldl (regoStep cf wf)
            ⟨(regoStep cf wf ⟨fs, lg', pk⟩ f).fs, (regoStep cf wf ⟨fs, lg', pk⟩ f).log,
              (regoStep cf wf ⟨fs, lg', pk⟩ f).panicked⟩).fs := ih _ _ _ _
      _ = (t.foldl (regoStep cf wf) (regoStep cf wf ⟨fs, lg', pk⟩ f)).fs := rfl

theorem kubeRun_fatal_absorb (wf : List String) :
    ∀ (l : List (String × Option (List Char))) (st : KubeGenState), st.fatal = true →
      l.foldl (kubeStep wf) st = st := by
  intro l
  induction l with
  | nil => intro st _; rfl
  | cons f t ih =>
    intro st hst
    show t.foldl (kubeStep wf) (kubeStep wf st f) = st
    have hstep : kubeStep wf st f = st := by
      unfold kubeStep
      rw [if_pos hst]
    rw [hstep]
    exact ih st hst

theorem regoStep_absorb (cf wf : List String) (f : String × Option String)
    (st : RegoGenState) (h : st.panicked = true) : regoStep cf wf st f = st := by
  unfold regoStep
  rw [if_pos h]

theorem regoStep_createfail (cf wf : List String) (f : String × Option String)
    (rp : RegoPost) (st : RegoGenState) (hpk : st.panicked = false)
    (hp : ParseRegoPolicyFile f.2 = .ok rp) (hcf : regoOutputFileName rp ∈ cf) :
    regoStep cf wf st f
      = ⟨st.fs, st.log ++ ["unable to create file: " ++ f.1 ++ ", skipping..."],
         st.panicked⟩ := by
  unfold regoStep
  rw [if_neg (by simp [hpk])]
  rw [hp]
  simp only []
  rw [if_pos hcf]

theorem regoStep_writefail (cf wf : List String) (f : String × Option String)
    (rp : RegoPost) (st : RegoGenState) (hpk : st.panicked = false)
    (hp : ParseRegoPolicyFile f.2 = .ok rp) (hcf : regoOutputFileName rp ∉ cf)
    (hwf : regoOutputFileName rp ∈ wf) :
    regoStep cf wf st f
      = ⟨(regoOutputFileName rp, []) :: st.fs,
         st.log ++ ["unable to write file: " ++ f.1 ++ ", skipping..."],
         st.panicked⟩ := by
  unfold regoStep
  rw [if_neg (by simp [hpk])]
  rw [hp]
  simp only []
  rw [if_neg hcf, if_pos hwf]

theorem regoRunAux_createfail_fs (cf wf : List String)
    (xs ys : List (String × Option String)) (f : String × Option String) (rp : RegoPost)
    (hp : ParseRegoPolicyFile f.2 = .ok rp) (hcf : regoOutputFileName rp ∈ cf) :
    ((xs ++ f :: ys).foldl (regoStep cf wf) ⟨[], [], false⟩).fs
      = ((xs ++ ys).foldl (regoStep cf wf) ⟨[], [], false⟩).fs := by
  rw [List.foldl_append, List.foldl_cons, List.foldl_append]
  cases hpk : (xs.foldl (regoStep cf wf) ⟨[], [], false⟩).panicked with
  | true => rw [regoStep_absorb cf wf f _ hpk]
  | false =>
    rw [regoStep_createfail cf wf f rp _ hpk hp hcf]
    exact regoRun_fs_indep cf wf ys _ _ _ _

theorem regoRunAux_writefail_frame (cf wf : List String)
    (xs ys : List (String × Option String)) (f : String × Option String) (rp : RegoPost)
    (hp : ParseRegoPolicyFile f.2 = .ok rp) (hcf : regoOutputFileName rp ∉ cf)
    (hwf : regoOutputFileName rp ∈ wf) :
    ∀ n, n ≠ regoOutputFileName rp →
      List.lookup n ((xs ++ f :: ys).foldl (regoStep cf wf) ⟨[], [], false⟩).fs
        = List.lookup n ((xs ++ ys).foldl (regoStep cf wf) ⟨[], [], false⟩).fs := by
  intro n hn
  rw [List.foldl_append, List.foldl_cons, List.foldl_append]
  cases hpk : (xs.foldl (regoStep cf wf) ⟨[], [], false⟩).panicked with
  | true => rw [regoStep_absorb cf wf f _ hpk]
  | false =>
    rw [regoStep_writefail cf wf f rp _ hpk hp hcf hwf]
    exact (regoRun_frame cf wf ys (regoOutputFileName rp) _ _ _ _ _ _ rfl
      (fun m hm => lookup_cons_ne m _ _ _ hm)).2 n hn

/-- The directory filter of `generateRegoPolicyPages` keeps a file whose
name contains "rego" and not "_test", and distributes over the list. -/
theorem regoFilter_middle (f : String × Option String)
    (hrego : goContains f.1.data "rego".data = true)
    (htest : goContains f.1.data "_test".data = false) :
    ∀ (l l' : List (String × Option String)),
      (l ++ f :: l').filter
          (fun g => goContains g.1.data "rego".data && !goContains g.1.data "_test".data)
        = l.filter (fun g => goContains g.1.data "rego".data && !goContains g.1.data "_test".data)
          ++ f :: l'.filter
              (fun g => goContains g.1.data "rego".data && !goContains g.1.data "_test".data) := by
  intro l l'
  rw [List.filter_append, List.filter_cons]
  rw [if_pos (by simp [hrego, htest])]

theorem kubeStep_writefail_fatal (wf : List String) (f : String × Option (List Char))
    (b ttl : List Char) (st : KubeGenState)
    (hread : f.2 = some b) (httl : findTitle b = some ttl) (hwf : f.1 ∈ wf) :
    (kubeStep wf st f).fatal = true := by
  unfold kubeStep
  cases hpk : st.fatal with
  | true => simpa using hpk
  | false =>
    rw [if_neg (by simp)]
    rw [hread]
    simp only []
    rw [httl]
    simp only []
    rw [if_pos hwf]

/-! ## Claim C6 -/

/-- C6 (amended): in the vulnerability and Rego policy passes a failure to
create or write one record's output file is logged and only that record is
skipped — the batch continues and every other output name is unaffected;
but in the kube-hunter pass a write failure hits `log.Fatalln`, so the pass
aborts and the remaining files are never processed. -/
theorem c6_write_failure_scope :
    (∀ (cw : String → Option WeaknessType) (cf wf : List String) xs ys
        (f : String × Option VulnJson) bp0,
      ParseVulnerabilityJSONFile f.2 = .ok bp0 →
      vulnOutputFileName (AddCWEInformation bp0 cw).1 ∈ cf →
      (generateVulnerabilityPages cw cf wf (xs ++ f :: ys)).fs
          = (generateVulnerabilityPages cw cf wf (xs ++ ys)).fs
      ∧ (generateVulnerabilityPages cw cf wf (xs ++ f :: ys)).log
          = (xs.map (vulnStepLog cw cf wf)).flatten
            ++ ("unable to create file: " ++ f.1 ++ ", skipping...")
              :: (ys.map (vulnStepLog cw cf wf)).flatten)
    ∧ (∀ (cw : String → Option WeaknessType) (cf wf : List String) xs ys
        (f : String × Option VulnJson) bp0,
      ParseVulnerabilityJSONFile f.2 = .ok bp0 →
      vulnOutputFileName (AddCWEInformation bp0 cw).1 ∉ cf →
      vulnOutputFileName (AddCWEInformation bp0 cw).1 ∈ wf →
      (∀ n, n ≠ vulnOutputFileName (AddCWEInformation bp0 cw).1 →
        List.lookup n (generateVulnerabilityPages cw cf wf (xs ++ f :: ys)).fs
          = List.lookup n (generateVulnerabilityPages cw cf wf (xs ++ ys)).fs)
      ∧ (generateVulnerabilityPages cw cf wf (xs ++ f :: ys)).log
          = (xs.map (vulnStepLog cw cf wf)).flatten
            ++ ("unable to write file: " ++ f.1 ++ ", skipping...")
              :: (ys.map (vulnStepLog cw cf wf)).flatten)
    ∧ (∀ (cf wf : List String) xs ys (f : String × Option String) rp,
      ParseRegoPolicyFile f.2 = .ok rp →
      goContains f.1.data "rego".data = true →
      goContains f.1.data "_test".data = false →
      regoOutputFileName rp ∈ cf →
      (generateRegoPolicyPages cf wf (xs ++ f :: ys)).fs
          = (generateRegoPolicyPages cf wf (xs ++ ys)).fs
      ∧ ∀ fs lg, (regoStep cf wf ⟨fs, lg, false⟩ f).log
          = lg ++ ["unable to create file: " ++ f.1 ++ ", skipping..."])
    ∧ (∀ (cf wf : List String) xs ys (f : String × Option String) rp,
      ParseRegoPolicyFile f.2 = .ok rp →
      goContains f.1.data "rego".data = true →
      goContains f.1.data "_test".data = false →
      regoOutputFileName rp ∉ cf →
      regoOutputFileName rp ∈ wf →
      (∀ n, n ≠ regoOutputFileName rp →
        List.lookup n (generateRegoPolicyPages cf wf (xs ++ f :: ys)).fs
          = List.lookup n (generateRegoPolicyPages cf wf (xs ++ ys)).fs)
      ∧ ∀ fs lg, (regoStep cf wf ⟨fs, lg, false⟩ f).log
          = lg ++ ["unable to write file: " ++ f.1 ++ ", skipping..."])
    ∧ (∀ (wf : List String) xs ys (f : String × Option (List Char)) b ttl,
      f.2 = some b → findTitle b = some ttl → f.1 ∈ wf →
      generateKubeHunterPages wf (xs ++ f :: ys)
          = kubeStep wf (generateKubeHunterPages wf xs) f
      ∧ (generateKubeHunterPages wf (xs ++ f :: ys)).fatal = true) := by
  refine ⟨?_, ?_, ?_, ?_, ?_⟩
  · -- vulnerability pass, create failure
    intro cw cf wf xs ys f bp0 hp hcf
    have hstep : ∀ (S : GenState), vulnStep cw cf wf S f
        = ⟨S.fs, S.log ++ ["unable to create file: " ++ f.1 ++ ", skipping..."]⟩ := by
      intro S
      show vulnStep cw cf wf ⟨S.fs, S.log⟩ f = _
      unfold vulnStep
      rw [hp]
      simp only []
      rw [if_pos hcf]
    constructor
    · show ((xs ++ f :: ys).foldl (vulnStep cw cf wf) ⟨[], []⟩).fs
        = ((xs ++ ys).foldl (vulnStep cw cf wf) ⟨[], []⟩).fs
      rw [List.foldl_append, List.foldl_cons, List.foldl_append]
      rw [hstep]
      exact vulnRun_fs_indep cw cf wf ys _ _ _
    · show ((xs ++ f :: ys).foldl (vulnStep cw cf wf) ⟨[], []⟩).log = _
      rw [vulnRun_log cw cf wf]
      have hsl : vulnStepLog cw cf wf f
          = ["unable to create file: " ++ f.1 ++ ", skipping..."] := by
        unfold vulnStepLog
        rw [hp]
        simp only []
        rw [if_pos hcf]
      simp [hsl]
  · -- vulnerability pass, write failure
    intro cw cf wf xs ys f bp0 hp hcf hwf
    have hstep : ∀ (S : GenState), vulnStep cw cf wf S f
        = ⟨(vulnOutputFileName (AddCWEInformation bp0 cw).1,
            if GetCustomContentFromMarkdown
                (some ((S.fs.lookup (vulnOutputFileName (AddCWEInformation bp0 cw).1)).getD []))
              = [] then (S.fs.lookup (vulnOutputFileName (AddCWEInformation bp0 cw).1)).getD []
            else []) :: S.fs,
           S.log ++ ["unable to write file: " ++ f.1 ++ ", skipping..."]⟩ := by
      intro S
      show vulnStep cw cf wf ⟨S.fs, S.log⟩ f = _
      unfold vulnStep
      rw [hp]
      simp only []
      rw [if_neg hcf, if_pos hwf]
    constructor
    · intro n hn
      show List.lookup n ((xs ++ f :: ys).foldl (vulnStep cw cf wf) ⟨[], []⟩).fs
        = List.lookup n ((xs ++ ys).foldl (vulnStep cw cf wf) ⟨[], []⟩).fs
      rw [List.foldl_append, List.foldl_cons, List.foldl_append]
      rw [hstep]
      apply vulnRun_frame cw cf wf ys (vulnOutputFileName (AddCWEInformation bp0 cw).1)
        _ _ _ _ _ n hn
      intro m hm
      exact lookup_cons_ne m _ _ _ hm
    · show ((xs ++ f :: ys).foldl (vulnStep cw cf wf) ⟨[], []⟩).log = _
      rw [vulnRun_log cw cf wf]
      have hsl : vulnStepLog cw cf wf f
          = ["unable to write file: " ++ f.1 ++ ", skipping..."] := by
        unfold vulnStepLog
        rw [hp]
        simp only []
        rw [if_neg hcf, if_pos hwf]
      simp [hsl]
  · -- rego pass, create failure
    intro cf wf xs ys f rp hp hrego htest hcf
    constructor
    · show (((xs ++ f :: ys).filter
          (fun g => goContains g.1.data "rego".data && !goContains g.1.data "_test".data)).foldl
            (regoStep cf wf) ⟨[], [], false⟩).fs
        = (((xs ++ ys).filter
          (fun g => goContains g.1.data "rego".data && !goContains g.1.data "_test".data)).foldl
            (regoStep cf wf) ⟨[], [], false⟩).fs
      rw [regoFilter_middle f hrego htest, List.filter_append]
      exact regoRunAux_createfail_fs cf wf _ _ f rp hp hcf
    · intro fs lg
      rw [regoStep_createfail cf wf f rp ⟨fs, lg, false⟩ rfl hp hcf]
  · -- rego pass, write failure
    intro cf wf xs ys f rp hp hrego htest hcf hwf
    constructor
    · intro n hn
      show List.lookup n (((xs ++ f :: ys).filter
          (fun g => goContains g.1.data "rego".data && !goContains g.1.data "_test".data)).foldl
            (regoStep cf wf) ⟨[], [], false⟩).fs
        = List.lookup n (((xs ++ ys).filter
          (fun g => goContains g.1.data "rego".data && !goContains g.1.data "_test".data)).foldl
            (regoStep cf wf) ⟨[], [], false⟩).fs
      rw [regoFilter_middle f hrego htest, List.filter_append]
      exact regoRunAux_writefail_frame cf wf _ _ f rp hp hcf hwf n hn
    · intro fs lg
      rw [regoStep_writefail cf wf f rp ⟨fs, lg, false⟩ rfl hp hcf hwf]
  · -- kube-hunter pass, write failure is fatal
    intro wf xs ys f b ttl hread httl hwf
    have hfatal := kubeStep_writefail_fatal wf f b ttl
      (xs.foldl (kubeStep wf) ⟨[], [], false⟩) hread httl hwf
    constructor
    · show (xs ++ f :: ys).foldl (kubeStep wf) ⟨[], [], false⟩ = _
      rw [List.foldl_append, List.foldl_cons]
      exact kubeRun_fatal_absorb wf ys _ hfatal
    · show ((xs ++ f :: ys).foldl (kubeStep wf) ⟨[], [], false⟩).fatal = true
      rw [List.foldl_append, List.foldl_cons]
      rw [kubeRun_fatal_absorb wf ys _ hfatal]
      exact hfatal

def cwC6 : String → Option WeaknessType := fun _ => none

def jC6a : VulnJson := { cveId := some "CVE-2012-0001" }

def jC6b : VulnJson := { cveId := some "CVE-2012-0002" }

def bpC6a : VulnerabilityPost :=
  (ParseVulnerabilityJSONFile (some jC6a)).toOption.getD default

def fC6v : String × Option VulnJson := ("v1.json", some jC6a)

def gC6v : String × Option VulnJson := ("v2.json", some jC6b)

def regoC6 : String := "# @id: KSV600\npackage main\nallow = true"

def rpC6 : RegoPost :=
  match ParseRegoPolicyFile (some regoC6) with
  | .ok rp => rp
  | _ => default

def fC6r : String × Option String := ("c6_policy.rego", some regoC6)

def fC6k : String × Option (List Char) := ("KHV001.md", some "---\ntitle: T\n---".data)

theorem c6_write_failure_scope_witness :
    (generateVulnerabilityPages cwC6 ["CVE-2012-0001.md"] [] [fC6v, gC6v]).fs
        = (generateVulnerabilityPages cwC6 ["CVE-2012-0001.md"] [] [gC6v]).fs
    ∧ List.lookup "CVE-2012-0002.md"
        (generateVulnerabilityPages cwC6 [] ["CVE-2012-0001.md"] [fC6v, gC6v]).fs
        = List.lookup "CVE-2012-0002.md"
          (generateVulnerabilityPages cwC6 [] ["CVE-2012-0001.md"] [gC6v]).fs
    ∧ (generateRegoPolicyPages ["KSV600.md"] [] [fC6r]).fs
        = (generateRegoPolicyPages ["KSV600.md"] [] []).fs
    ∧ List.lookup "other.md" (generateRegoPolicyPages [] ["KSV600.md"] [fC6r]).fs
        = List.lookup "other.md" (generateRegoPolicyPages [] ["KSV600.md"] []).fs
    ∧ (generateKubeHunterPages ["KHV001.md"] [fC6k]).fatal = true :=
  ⟨(c6_write_failure_scope.1 cwC6 ["CVE-2012-0001.md"] [] [] [gC6v] fC6v bpC6a rfl
      (by decide)).1,
   (c6_write_failure_scope.2.1 cwC6 [] ["CVE-2012-0001.md"] [] [gC6v] fC6v bpC6a rfl
      (by decide) (by decide)).1 "CVE-2012-0002.md" (by decide),
   (c6_write_failure_scope.2.2.1 ["KSV600.md"] [] [] [] fC6r rpC6 rfl
      (by decide) (by decide) (by decide)).1,
   (c6_write_failure_scope.2.2.2.1 [] ["KSV600.md"] [] [] fC6r rpC6 rfl
      (by decide) (by decide) (by decide) (by decide)).1 "other.md" (by decide),
   (c6_write_failure_scope.2.2.2.2 ["KHV001.md"] [] [] fC6k "---\ntitle: T\n---".data
      "T".data rfl (by decide) (by decide)).2⟩

def kubeFilesC6 : List (String × Option (List Char)) :=
  [("KHV002.md", some "---\nvid: KHV002\ntitle: Initial Access\n---\nSome body".data),
   ("KHV003.md", some "---\nvid: KHV003\ntitle: Second Page\n---\nOther body".data)]

/-- C6 counterexample: in the kube-hunter pass a write failure on the first
page makes the run fatal (`log.Fatalln`), so the second page is never
written — while the same input without the failure does produce it. -/
theorem c6_counterexample :
    (generateKubeHunterPages ["KHV002.md"] kubeFilesC6).fatal = true
    ∧ (generateKubeHunterPages ["KHV002.md"] kubeFilesC6).fs.lookup "KHV003.md" = none
    ∧ ((generateKubeHunterPages [] kubeFilesC6).fs.lookup "KHV003.md").isSome = true := by
  refine ⟨by decide, by decide, by decide⟩
